import Mathlib

/-!
Shallow embedding of the Spark-Todo persistence layer (`internal/todo/store.go`,
`internal/todo/models.go`): a single-user SQLite-backed store for task groups,
tasks and key/value settings.  The database state is modelled explicitly as a
`Store` value; each Go method becomes a Lean function on `Store`.  SQLite
statement execution is modelled by `exec…` functions that mirror the semantics
of the concrete SQL statements the Go code issues against the migrated schema
(UNIQUE/CHECK/FK constraints, rows-affected counts, AUTOINCREMENT ids).
Timestamps (`time.Now().UnixMilli()`) are passed in explicitly as `now`.
-/

deriving instance DecidableEq for Except

/-! ## String helpers (Go standard-library behaviour) -/

/-- Models Go `unicode.IsSpace`: the White_Space code points. -/
def goIsSpace (c : Char) : Bool :=
  let n := c.toNat
  n == 0x9 || n == 0xA || n == 0xB || n == 0xC || n == 0xD || n == 0x20 ||
  n == 0x85 || n == 0xA0 || n == 0x1680 ||
  (0x2000 ≤ n && n ≤ 0x200A) || n == 0x2028 || n == 0x2029 ||
  n == 0x202F || n == 0x205F || n == 0x3000

/-- Models Go `strings.TrimSpace`: drop leading and trailing white space. -/
def goTrimSpace (s : String) : String :=
  ⟨((s.data.dropWhile goIsSpace).reverse.dropWhile goIsSpace).reverse⟩

/-- The non-ASCII part of the Unicode simple lowercase mapping used by Go
`unicode.ToLower` (Go's `CaseRanges`), compressed into ranges
`(lo, hi, stride, delta)`: the code points `lo, lo+stride, …, hi` lower to
themselves plus `delta`.  Includes the special cases of the simple mapping,
e.g. U+0130 'İ' → 'i' and U+212A KELVIN SIGN → 'k'. -/
def goLowerRanges : List (Nat × Nat × Nat × Int) := [
  (0xc0, 0xd6, 1, 32), (0xd8, 0xde, 1, 32), (0x100, 0x12e, 2, 1), (0x130, 0x130, 1, (-199)),
  (0x132, 0x136, 2, 1), (0x139, 0x147, 2, 1), (0x14a, 0x176, 2, 1), (0x178, 0x178, 1, (-121)),
  (0x179, 0x17d, 2, 1), (0x181, 0x181, 1, 210), (0x182, 0x184, 2, 1), (0x186, 0x186, 1, 206),
  (0x187, 0x187, 1, 1), (0x189, 0x18a, 1, 205), (0x18b, 0x18b, 1, 1), (0x18e, 0x18e, 1, 79),
  (0x18f, 0x18f, 1, 202), (0x190, 0x190, 1, 203), (0x191, 0x191, 1, 1), (0x193, 0x193, 1, 205),
  (0x194, 0x194, 1, 207), (0x196, 0x196, 1, 211), (0x197, 0x197, 1, 209), (0x198, 0x198, 1, 1),
  (0x19c, 0x19c, 1, 211), (0x19d, 0x19d, 1, 213), (0x19f, 0x19f, 1, 214), (0x1a0, 0x1a4, 2, 1),
  (0x1a6, 0x1a6, 1, 218), (0x1a7, 0x1a7, 1, 1), (0x1a9, 0x1a9, 1, 218), (0x1ac, 0x1ac, 1, 1),
  (0x1ae, 0x1ae, 1, 218), (0x1af, 0x1af, 1, 1), (0x1b1, 0x1b2, 1, 217), (0x1b3, 0x1b5, 2, 1),
  (0x1b7, 0x1b7, 1, 219), (0x1b8, 0x1bc, 4, 1), (0x1c4, 0x1c4, 1, 2), (0x1c5, 0x1c5, 1, 1),
  (0x1c7, 0x1c7, 1, 2), (0x1c8, 0x1c8, 1, 1), (0x1ca, 0x1ca, 1, 2), (0x1cb, 0x1db, 2, 1),
  (0x1de, 0x1ee, 2, 1), (0x1f1, 0x1f1, 1, 2), (0x1f2, 0x1f4, 2, 1), (0x1f6, 0x1f6, 1, (-97)),
  (0x1f7, 0x1f7, 1, (-56)), (0x1f8, 0x21e, 2, 1), (0x220, 0x220, 1, (-130)), (0x222, 0x232, 2, 1),
  (0x23a, 0x23a, 1, 10795), (0x23b, 0x23b, 1, 1), (0x23d, 0x23d, 1, (-163)), (0x23e, 0x23e, 1, 10792),
  (0x241, 0x241, 1, 1), (0x243, 0x243, 1, (-195)), (0x244, 0x244, 1, 69), (0x245, 0x245, 1, 71),
  (0x246, 0x24e, 2, 1), (0x370, 0x372, 2, 1), (0x376, 0x376, 1, 1), (0x37f, 0x37f, 1, 116),
  (0x386, 0x386, 1, 38), (0x388, 0x38a, 1, 37), (0x38c, 0x38c, 1, 64), (0x38e, 0x38f, 1, 63),
  (0x391, 0x3a1, 1, 32), (0x3a3, 0x3ab, 1, 32), (0x3cf, 0x3cf, 1, 8), (0x3d8, 0x3ee, 2, 1),
  (0x3f4, 0x3f4, 1, (-60)), (0x3f7, 0x3f7, 1, 1), (0x3f9, 0x3f9, 1, (-7)), (0x3fa, 0x3fa, 1, 1),
  (0x3fd, 0x3ff, 1, (-130)), (0x400, 0x40f, 1, 80), (0x410, 0x42f, 1, 32), (0x460, 0x480, 2, 1),
  (0x48a, 0x4be, 2, 1), (0x4c0, 0x4c0, 1, 15), (0x4c1, 0x4cd, 2, 1), (0x4d0, 0x52e, 2, 1),
  (0x531, 0x556, 1, 48), (0x10a0, 0x10c5, 1, 7264), (0x10c7, 0x10cd, 6, 7264), (0x13a0, 0x13ef, 1, 38864),
  (0x13f0, 0x13f5, 1, 8), (0x1c90, 0x1cba, 1, (-3008)), (0x1cbd, 0x1cbf, 1, (-3008)), (0x1e00, 0x1e94, 2, 1),
  (0x1e9e, 0x1e9e, 1, (-7615)), (0x1ea0, 0x1efe, 2, 1), (0x1f08, 0x1f0f, 1, (-8)), (0x1f18, 0x1f1d, 1, (-8)),
  (0x1f28, 0x1f2f, 1, (-8)), (0x1f38, 0x1f3f, 1, (-8)), (0x1f48, 0x1f4d, 1, (-8)), (0x1f59, 0x1f5f, 2, (-8)),
  (0x1f68, 0x1f6f, 1, (-8)), (0x1f88, 0x1f8f, 1, (-8)), (0x1f98, 0x1f9f, 1, (-8)), (0x1fa8, 0x1faf, 1, (-8)),
  (0x1fb8, 0x1fb9, 1, (-8)), (0x1fba, 0x1fbb, 1, (-74)), (0x1fbc, 0x1fbc, 1, (-9)), (0x1fc8, 0x1fcb, 1, (-86)),
  (0x1fcc, 0x1fcc, 1, (-9)), (0x1fd8, 0x1fd9, 1, (-8)), (0x1fda, 0x1fdb, 1, (-100)), (0x1fe8, 0x1fe9, 1, (-8)),
  (0x1fea, 0x1feb, 1, (-112)), (0x1fec, 0x1fec, 1, (-7)), (0x1ff8, 0x1ff9, 1, (-128)), (0x1ffa, 0x1ffb, 1, (-126)),
  (0x1ffc, 0x1ffc, 1, (-9)), (0x2126, 0x2126, 1, (-7517)), (0x212a, 0x212a, 1, (-8383)), (0x212b, 0x212b, 1, (-8262)),
  (0x2132, 0x2132, 1, 28), (0x2160, 0x216f, 1, 16), (0x2183, 0x2183, 1, 1), (0x24b6, 0x24cf, 1, 26),
  (0x2c00, 0x2c2f, 1, 48), (0x2c60, 0x2c60, 1, 1), (0x2c62, 0x2c62, 1, (-10743)), (0x2c63, 0x2c63, 1, (-3814)),
  (0x2c64, 0x2c64, 1, (-10727)), (0x2c67, 0x2c6b, 2, 1), (0x2c6d, 0x2c6d, 1, (-10780)), (0x2c6e, 0x2c6e, 1, (-10749)),
  (0x2c6f, 0x2c6f, 1, (-10783)), (0x2c70, 0x2c70, 1, (-10782)), (0x2c72, 0x2c75, 3, 1), (0x2c7e, 0x2c7f, 1, (-10815)),
  (0x2c80, 0x2ce2, 2, 1), (0x2ceb, 0x2ced, 2, 1), (0x2cf2, 0xa640, 31054, 1), (0xa642, 0xa66c, 2, 1),
  (0xa680, 0xa69a, 2, 1), (0xa722, 0xa72e, 2, 1), (0xa732, 0xa76e, 2, 1), (0xa779, 0xa77b, 2, 1),
  (0xa77d, 0xa77d, 1, (-35332)), (0xa77e, 0xa786, 2, 1), (0xa78b, 0xa78b, 1, 1), (0xa78d, 0xa78d, 1, (-42280)),
  (0xa790, 0xa792, 2, 1), (0xa796, 0xa7a8, 2, 1), (0xa7aa, 0xa7aa, 1, (-42308)), (0xa7ab, 0xa7ab, 1, (-42319)),
  (0xa7ac, 0xa7ac, 1, (-42315)), (0xa7ad, 0xa7ad, 1, (-42305)), (0xa7ae, 0xa7ae, 1, (-42308)), (0xa7b0, 0xa7b0, 1, (-42258)),
  (0xa7b1, 0xa7b1, 1, (-42282)), (0xa7b2, 0xa7b2, 1, (-42261)), (0xa7b3, 0xa7b3, 1, 928), (0xa7b4, 0xa7c2, 2, 1),
  (0xa7c4, 0xa7c4, 1, (-48)), (0xa7c5, 0xa7c5, 1, (-42307)), (0xa7c6, 0xa7c6, 1, (-35384)), (0xa7c7, 0xa7c9, 2, 1),
  (0xa7d0, 0xa7d6, 6, 1), (0xa7d8, 0xa7f5, 29, 1), (0xff21, 0xff3a, 1, 32), (0x10400, 0x10427, 1, 40),
  (0x104b0, 0x104d3, 1, 40), (0x10570, 0x1057a, 1, 39), (0x1057c, 0x1058a, 1, 39), (0x1058c, 0x10592, 1, 39),
  (0x10594, 0x10595, 1, 39), (0x10c80, 0x10cb2, 1, 64), (0x118a0, 0x118bf, 1, 32), (0x16e40, 0x16e5f, 1, 32),
  (0x1e900, 0x1e921, 1, 34)]

/-- The lowering delta of a non-ASCII code point, when it has one. -/
def goLowerDelta (n : Nat) : Option Int :=
  goLowerRanges.findSome? (fun r =>
    if r.1 ≤ n ∧ n ≤ r.2.1 ∧ (n - r.1) % r.2.2.1 = 0 then some r.2.2.2 else none)

/-- Models Go `unicode.ToLower`: the ASCII fast path, then the Unicode
simple lowercase mapping. -/
def charToLowerGo (c : Char) : Char :=
  let n := c.toNat
  if n < 0x80 then
    if 0x41 ≤ n ∧ n ≤ 0x5A then Char.ofNat (n + 32) else c
  else
    match goLowerDelta n with
    | some d => Char.ofNat (n + d).toNat
    | none => c

/-- Models Go `strings.ToLower`: lower every rune through the Unicode simple
case mapping. -/
def toLowerGo (s : String) : String := ⟨s.data.map charToLowerGo⟩

/-- Models Go `strings.EqualFold(value, "true")`: a string is simple-fold
equal to the word `"true"` exactly when it lowers to it, because the only
code points whose simple lowercase mapping is `t`, `r`, `u` or `e` are
`T`, `R`, `U` and `E` (no exotic fold partners exist for these letters). -/
def equalFoldTrue (value : String) : Bool := toLowerGo value = "true"

/-- Value of a list of decimal digit characters, most significant first
(the accumulation loop used by Go `strconv.ParseInt` in base 10). -/
def decDigitsVal (l : List Char) : Nat := l.foldl (fun n c => n * 10 + (c.toNat - 48)) 0

/-- Decimal digit characters of `n`, most significant first; fuel-based so that
it is structurally recursive.  `natDecDigits` supplies sufficient fuel. -/
def natDecDigitsAux : Nat → Nat → List Char
  | 0, _ => []
  | fuel + 1, n =>
    if n < 10 then [Nat.digitChar n]
    else natDecDigitsAux fuel (n / 10) ++ [Nat.digitChar (n % 10)]

/-- Decimal digit characters of `n`, most significant first. -/
def natDecDigits (n : Nat) : List Char := natDecDigitsAux (n + 1) n

/-- Models Go `strconv.FormatInt(t, 10)`. -/
def goFormatInt (t : Int) : String :=
  if t < 0 then ⟨'-' :: natDecDigits (-t).toNat⟩ else ⟨natDecDigits t.toNat⟩

/-- Models Go `strconv.ParseInt(s, 10, 64)`: an optional sign followed by a
non-empty run of decimal digits, rejected when the value leaves the int64
range; `none` stands for a parse error. -/
def goParseInt64 (s : String) : Option Int :=
  match s.data with
  | [] => none
  | c :: rest =>
    let signDigits : Bool × List Char :=
      if c = '-' then (true, rest)
      else if c = '+' then (false, rest)
      else (false, c :: rest)
    let digits := signDigits.2
    if digits = [] then none
    else if digits.all (fun d => d.isDigit) then
      let v : Int := if signDigits.1 then -(decDigitsVal digits : Int) else (decDigitsVal digits : Int)
      if -(2 ^ 63) ≤ v ∧ v < 2 ^ 63 then some v else none
    else none

/-- Models `boolTo01`: encode a bool as the text `"0"`/`"1"`. -/
def boolTo01 (b : Bool) : String := if b then "1" else "0"

/-! ## Data model (`models.go`) and store state -/

/-- Length limits, counted in runes (Unicode code points), from `store.go`. -/
def maxGroupNameRunes : Nat := 50

/-- Maximum task title length in runes. -/
def maxTaskTitleRunes : Nat := 200

/-- Maximum task content length in runes. -/
def maxTaskContentRunes : Nat := 1000

/-- Maximum view-mode length in runes. -/
def maxViewModeRunes : Nat := 20

/-- A row of the `groups` table. -/
structure GroupRow where
  id : Int
  name : String
  createdAt : Int
  updatedAt : Int
deriving DecidableEq

/-- A row of the `tasks` table (also the request record passed to
`UpsertTask`); `important`/`urgent` are stored as 0/1 integers in SQLite and
modelled directly as booleans, `status` is the stored TEXT. -/
structure TaskRow where
  id : Int
  groupId : Int
  title : String
  content : String
  status : String
  important : Bool
  urgent : Bool
  createdAt : Int
  updatedAt : Int
deriving DecidableEq

/-- The Go `Settings` struct. `theme` is never read by `GetSettings`. -/
structure Settings where
  hideDone : Bool
  alwaysOnTop : Bool
  viewMode : String
  conciseMode : Bool
  theme : String
deriving DecidableEq

/-- The whole database state: the three tables plus the AUTOINCREMENT
counters of `groups` and `tasks`.  The `settings` table has `key` as its
primary key; well-formed states keep the keys distinct. -/
structure Store where
  groups : List GroupRow
  tasks : List TaskRow
  settings : List (String × String)
  nextGroupId : Int
  nextTaskId : Int
deriving DecidableEq

/-- The errors the store reports (each constructor stands for one of the
stable error messages produced in `store.go` / `models.go`). -/
inductive StoreErr where
  | groupNameEmpty
  | groupNameTooLong
  | groupNameDuplicate
  | groupNotFound (id : Int)
  | invalidGroupId
  | groupRequired
  | taskTitleEmpty
  | taskTitleTooLong
  | taskContentTooLong
  | invalidStatus (s : String)
  | taskNotFound (id : Int)
  | invalidTaskId
  | dbError (op : String)
deriving DecidableEq

/-- Models `ParseStatus`: membership of the closed status enumeration. -/
def ParseStatus (s : String) : Except StoreErr String :=
  if s = "todo" ∨ s = "doing" ∨ s = "done" then .ok s
  else .error (.invalidStatus s)

/-! ## SQLite statement layer -/

/-- An error raised by the SQLite engine while executing a statement,
carrying its extended result code (`modernc.org/sqlite` `Error.Code()`). -/
inductive SqliteErr where
  | constraint (code : Nat)
deriving DecidableEq

/-- SQLite extended result code for a UNIQUE-constraint violation. -/
def SQLITE_CONSTRAINT_UNIQUE : Nat := 2067

/-- SQLite extended result code for a CHECK-constraint violation. -/
def SQLITE_CONSTRAINT_CHECK : Nat := 275

/-- SQLite extended result code for a FOREIGN KEY-constraint violation. -/
def SQLITE_CONSTRAINT_FOREIGNKEY : Nat := 787

/-- Models `sqliteIsConstraint`: does the engine error carry exactly the
given extended result code? -/
def sqliteIsConstraint : SqliteErr → Nat → Bool
  | .constraint c, code => c == code

/-- Models executing `INSERT INTO groups(name, created_at, updated_at)` under
the `name TEXT NOT NULL UNIQUE` constraint: a duplicate name violates the
UNIQUE constraint, otherwise the row is appended with the next
AUTOINCREMENT id.  Returns the new row id. -/
def execInsertGroup (s : Store) (name : String) (now : Int) :
    Except SqliteErr (Int × Store) :=
  if s.groups.any (fun g => g.name = name) then
    .error (.constraint SQLITE_CONSTRAINT_UNIQUE)
  else
    .ok (s.nextGroupId,
      { s with
        groups := s.groups ++ [⟨s.nextGroupId, name, now, now⟩],
        nextGroupId := s.nextGroupId + 1 })

/-- Models executing `UPDATE groups SET name = ?, updated_at = ? WHERE id = ?`:
when no row matches the WHERE clause the statement affects 0 rows (and no
constraint is evaluated); when a matched row would take a name already held
by a different row the UNIQUE constraint fires; otherwise the matched rows
are rewritten.  Returns the rows-affected count. -/
def execUpdateGroupName (s : Store) (id : Int) (name : String) (now : Int) :
    Except SqliteErr (Nat × Store) :=
  let matched := (s.groups.filter (fun g => g.id = id)).length
  if matched = 0 then .ok (0, s)
  else if s.groups.any (fun g => g.id ≠ id ∧ g.name = name) then
    .error (.constraint SQLITE_CONSTRAINT_UNIQUE)
  else
    .ok (matched,
      { s with groups := s.groups.map (fun g =>
          if g.id = id then { g with name := name, updatedAt := now } else g) })

/-- Models executing `DELETE FROM groups WHERE id = ?` with the
`ON DELETE CASCADE` foreign key from `tasks`: deleting a group row also
deletes the tasks that reference it.  Returns the rows-affected count
(group rows only, as reported by the driver). -/
def execDeleteGroup (s : Store) (id : Int) : Nat × Store :=
  let matched := (s.groups.filter (fun g => g.id = id)).length
  if matched = 0 then (0, s)
  else
    (matched,
      { s with
        groups := s.groups.filter (fun g => g.id ≠ id),
        tasks := s.tasks.filter (fun t => t.groupId ≠ id) })

/-- Models executing `INSERT INTO tasks(...)` under the table's CHECK and
FOREIGN KEY constraints.  Returns the new row id. -/
def execInsertTask (s : Store) (t : TaskRow) :
    Except SqliteErr (Int × Store) :=
  if ¬ s.groups.any (fun g => g.id = t.groupId) then
    .error (.constraint SQLITE_CONSTRAINT_FOREIGNKEY)
  else if ¬ (t.status = "todo" ∨ t.status = "doing" ∨ t.status = "done") then
    .error (.constraint SQLITE_CONSTRAINT_CHECK)
  else
    .ok (s.nextTaskId,
      { s with
        tasks := s.tasks ++ [{ t with id := s.nextTaskId }],
        nextTaskId := s.nextTaskId + 1 })

/-- Models executing the `UPDATE tasks SET ... WHERE id = ?` statement of
`UpsertTask`: 0 rows affected when no row matches; CHECK/FK constraints are
evaluated on matched rows; otherwise all mutable fields and `updated_at`
are rewritten.  Returns the rows-affected count. -/
def execUpdateTask (s : Store) (req : TaskRow) (now : Int) :
    Except SqliteErr (Nat × Store) :=
  let matched := (s.tasks.filter (fun t => t.id = req.id)).length
  if matched = 0 then .ok (0, s)
  else if ¬ s.groups.any (fun g => g.id = req.groupId) then
    .error (.constraint SQLITE_CONSTRAINT_FOREIGNKEY)
  else if ¬ (req.status = "todo" ∨ req.status = "doing" ∨ req.status = "done") then
    .error (.constraint SQLITE_CONSTRAINT_CHECK)
  else
    .ok (matched,
      { s with tasks := s.tasks.map (fun t =>
          if t.id = req.id then
            { t with
              groupId := req.groupId, title := req.title, content := req.content,
              status := req.status, important := req.important, urgent := req.urgent,
              updatedAt := now }
          else t) })

/-- Models executing `DELETE FROM tasks WHERE id = ?`.
Returns the rows-affected count. -/
def execDeleteTask (s : Store) (id : Int) : Nat × Store :=
  let matched := (s.tasks.filter (fun t => t.id = id)).length
  if matched = 0 then (0, s)
  else (matched, { s with tasks := s.tasks.filter (fun t => t.id ≠ id) })

/-! ## Store operations (`store.go`) -/

/-- Models `groupExists`: `SELECT id FROM groups WHERE id = ?`, with
`sql.ErrNoRows` mapped to `false`. -/
def groupExists (s : Store) (groupID : Int) : Bool :=
  s.groups.any (fun g => g.id = groupID)

/-- Models `UpsertGroup`: trim and validate the name, then insert (`id == 0`)
or update (`id ≠ 0`), mapping a UNIQUE-constraint engine error to the
duplicate-name error and a zero rows-affected update to the not-found
error.  Returns the result together with the post-call store state. -/
def upsertGroup (s : Store) (now : Int) (id : Int) (name : String) :
    Except StoreErr GroupRow × Store :=
  let name := goTrimSpace name
  if name = "" then (.error .groupNameEmpty, s)
  else if name.length > maxGroupNameRunes then (.error .groupNameTooLong, s)
  else if id = 0 then
    match execInsertGroup s name now with
    | .error e =>
      if sqliteIsConstraint e SQLITE_CONSTRAINT_UNIQUE then (.error .groupNameDuplicate, s)
      else (.error (.dbError "create group"), s)
    | .ok (newID, s') => (.ok ⟨newID, name, now, now⟩, s')
  else
    match execUpdateGroupName s id name now with
    | .error e =>
      if sqliteIsConstraint e SQLITE_CONSTRAINT_UNIQUE then (.error .groupNameDuplicate, s)
      else (.error (.dbError "update group"), s)
    | .ok (affected, s') =>
      if affected = 0 then (.error (.groupNotFound id), s')
      else
        match s'.groups.find? (fun g => g.id = id) with
        | none => (.error (.dbError "reload group"), s')
        | some g => (.ok g, s')

/-- Models `DeleteGroup`: reject non-positive ids before any write, then
delete and report not-found on zero rows affected. -/
def deleteGroup (s : Store) (id : Int) : Except StoreErr Unit × Store :=
  if id ≤ 0 then (.error .invalidGroupId, s)
  else
    let r := execDeleteGroup s id
    if r.1 = 0 then (.error (.groupNotFound id), r.2)
    else (.ok (), r.2)

/-- Models `UpsertTask`: trim title/content, validate in order (positive and
existing `groupId`, non-empty title, title length, content length, status),
then insert (`id == 0`) or update (`id ≠ 0`), mapping a zero rows-affected
update to the not-found error and re-reading the persisted row. -/
def upsertTask (s : Store) (now : Int) (req0 : TaskRow) :
    Except StoreErr TaskRow × Store :=
  let req : TaskRow :=
    { req0 with title := goTrimSpace req0.title, content := goTrimSpace req0.content }
  if req.groupId ≤ 0 then (.error .groupRequired, s)
  else if ¬ groupExists s req.groupId then (.error (.groupNotFound req.groupId), s)
  else if req.title = "" then (.error .taskTitleEmpty, s)
  else if req.title.length > maxTaskTitleRunes then (.error .taskTitleTooLong, s)
  else if req.content.length > maxTaskContentRunes then (.error .taskContentTooLong, s)
  else
    match ParseStatus req.status with
    | .error e => (.error e, s)
    | .ok _ =>
      if req.id = 0 then
        match execInsertTask s { req with createdAt := now, updatedAt := now } with
        | .error _ => (.error (.dbError "create task"), s)
        | .ok (newID, s') =>
          (.ok { req with id := newID, createdAt := now, updatedAt := now }, s')
      else
        match execUpdateTask s req now with
        | .error _ => (.error (.dbError "update task"), s)
        | .ok (affected, s') =>
          if affected = 0 then (.error (.taskNotFound req.id), s')
          else
            match s'.tasks.find? (fun t => t.id = req.id) with
            | none => (.error (.dbError "reload task"), s')
            | some t => (.ok t, s')

/-- Models `DeleteTask`: reject non-positive ids before any write, then
delete and report not-found on zero rows affected. -/
def deleteTask (s : Store) (id : Int) : Except StoreErr Unit × Store :=
  if id ≤ 0 then (.error .invalidTaskId, s)
  else
    let r := execDeleteTask s id
    if r.1 = 0 then (.error (.taskNotFound id), r.2)
    else (.ok (), r.2)

/-- The `ORDER BY updated_at DESC, id DESC` comparison of `ListTasks`:
row `a` may precede row `b`. -/
def taskOrd (a b : TaskRow) : Prop :=
  b.updatedAt < a.updatedAt ∨ (b.updatedAt = a.updatedAt ∧ b.id ≤ a.id)

instance : DecidableRel taskOrd := fun a b => by unfold taskOrd; infer_instance

instance : IsTotal TaskRow taskOrd :=
  ⟨by intro a b; unfold taskOrd; omega⟩

instance : IsTrans TaskRow taskOrd :=
  ⟨by intro a b c; unfold taskOrd; omega⟩

/-- Models `ListTasks`: `SELECT ... FROM tasks ORDER BY updated_at DESC,
id DESC` (the stored 0/1 `important`/`urgent` integers read back as the
booleans they encode).  Sorting is modelled by insertion sort, which returns
the unique `taskOrd`-sorted permutation for distinct row ids. -/
def listTasks (s : Store) : List TaskRow :=
  List.insertionSort taskOrd s.tasks

/-- Models `ListGroups`: `SELECT ... FROM groups ORDER BY id`. -/
def listGroups (s : Store) : List GroupRow :=
  List.insertionSort (fun a b => a.id ≤ b.id) s.groups

/-! ## Settings (`store.go`) -/

/-- Models `SELECT value FROM settings WHERE key = ?` on the `settings` table
(`key` is the primary key): the first matching row's value. -/
def settingsLookup (l : List (String × String)) (key : String) : Option String :=
  match l with
  | [] => none
  | kv :: rest => if kv.1 = key then some kv.2 else settingsLookup rest key

/-- Does a row with the given key exist (the conflict test of
`INSERT OR IGNORE` / `ON CONFLICT(key)`)? -/
def containsKey (l : List (String × String)) (key : String) : Bool :=
  match l with
  | [] => false
  | kv :: rest => kv.1 = key || containsKey rest key


/-- Models `normalizeViewMode`: trim and lower-case, fall back to `"cards"`
for anything longer than 20 runes or outside the allow-list. -/
def normalizeViewMode (v0 : String) : String :=
  let v := toLowerGo (goTrimSpace v0)
  if v.length > maxViewModeRunes then "cards"
  else if v = "list" ∨ v = "cards" then v
  else "cards"

/-- The coercion `value == "1" || strings.EqualFold(value, "true")` used by
`GetSettings` for the boolean keys. -/
def parseBool01True (value : String) : Bool :=
  value = "1" || equalFoldTrue value

/-- The defaults `GetSettings` starts from (the Go literal; `theme` is the
zero value of the struct field). -/
def defaultSettings : Settings :=
  { hideDone := false, alwaysOnTop := true, viewMode := "cards",
    conciseMode := false, theme := "" }

/-- One iteration of the `GetSettings` row loop: the switch on the key. -/
def applySettingRow (acc : Settings) (kv : String × String) : Settings :=
  match kv.1 with
  | "alwaysOnTop" => { acc with alwaysOnTop := parseBool01True kv.2 }
  | "hideDone" => { acc with hideDone := parseBool01True kv.2 }
  | "viewMode" => { acc with viewMode := normalizeViewMode kv.2 }
  | "conciseMode" => { acc with conciseMode := parseBool01True kv.2 }
  | _ => acc

/-- Models `GetSettings`: fold the stored rows over the defaults. -/
def getSettings (s : Store) : Settings :=
  s.settings.foldl applySettingRow defaultSettings

/-- Models `setSetting`: `INSERT INTO settings(key, value) VALUES(?, ?)
ON CONFLICT(key) DO UPDATE SET value = excluded.value`. -/
def setSetting (l : List (String × String)) (key value : String) :
    List (String × String) :=
  if containsKey l key then
    l.map (fun kv => if kv.1 = key then (key, value) else kv)
  else l ++ [(key, value)]

/-- Models `SetSettings`: upsert the four user-facing keys, the view mode
normalized. -/
def setSettings (s : Store) (st : Settings) : Store :=
  let l1 := setSetting s.settings "alwaysOnTop" (boolTo01 st.alwaysOnTop)
  let l2 := setSetting l1 "hideDone" (boolTo01 st.hideDone)
  let l3 := setSetting l2 "viewMode" (normalizeViewMode st.viewMode)
  let l4 := setSetting l3 "conciseMode" (boolTo01 st.conciseMode)
  { s with settings := l4 }

/-- Models `GetLastWaterReminderAt`: absent key, blank value or non-positive
parsed value read back as 0; a malformed stored value is a wrapped error. -/
def getLastWaterReminderAt (s : Store) : Except StoreErr Int :=
  match settingsLookup s.settings "lastWaterReminderAt" with
  | none => .ok 0
  | some value0 =>
    let value := goTrimSpace value0
    if value = "" then .ok 0
    else
      match goParseInt64 value with
      | none => .error (.dbError "parse lastWaterReminderAt")
      | some ts => if ts ≤ 0 then .ok 0 else .ok ts

/-- Models `SetLastWaterReminderAt`: clamp non-positive stamps to 0, then
upsert the auxiliary key. -/
def setLastWaterReminderAt (s : Store) (unixMilli : Int) : Store :=
  let v := if unixMilli ≤ 0 then 0 else unixMilli
  { s with settings := setSetting s.settings "lastWaterReminderAt" (goFormatInt v) }

/-! ## Bootstrap (`store.go`) -/

/-- Models `ensureDefaultGroup`: when `SELECT COUNT(1) FROM groups` is
positive do nothing, otherwise insert the single default group. -/
def ensureDefaultGroup (s : Store) (now : Int) : Store :=
  if s.groups.length > 0 then s
  else
    { s with
      groups := s.groups ++ [⟨s.nextGroupId, "默认", now, now⟩],
      nextGroupId := s.nextGroupId + 1 }

/-- Models one `INSERT OR IGNORE INTO settings(key, value)` statement:
a present key is left untouched. -/
def insertOrIgnoreSetting (l : List (String × String)) (key value : String) :
    List (String × String) :=
  if containsKey l key then l else l ++ [(key, value)]

/-- The default settings pairs of `ensureDefaultSettings` (a Go map literal;
the iteration order is irrelevant because the keys are distinct and each
statement touches only its own key). -/
def defaultSettingPairs : List (String × String) :=
  [("alwaysOnTop", "1"), ("hideDone", "0"), ("viewMode", "cards"), ("conciseMode", "0")]

/-- Models `ensureDefaultSettings`: insert-or-ignore every default pair. -/
def ensureDefaultSettings (s : Store) : Store :=
  { s with settings :=
      defaultSettingPairs.foldl (fun l kv => insertOrIgnoreSetting l kv.1 kv.2) s.settings }

/-! ## Concrete stores used by scenario claims and witnesses -/

/-- A freshly created, empty database. -/
def emptyStore : Store := ⟨[], [], [], 1, 1⟩

/-- A store holding only the bootstrap default group. -/
def scenarioBase : Store := ⟨[⟨1, "默认", 0, 0⟩], [], [], 2, 1⟩

/-- Insert request for task A of the ordering scenario. -/
def scenarioReqA : TaskRow := ⟨0, 1, "A", "", "todo", false, false, 0, 0⟩

/-- Insert request for task B of the ordering scenario. -/
def scenarioReqB : TaskRow := ⟨0, 1, "B", "", "todo", false, false, 0, 0⟩

/-- Insert request for task C of the ordering scenario. -/
def scenarioReqC : TaskRow := ⟨0, 1, "C", "", "todo", false, false, 0, 0⟩

/-- The scenario: insert A at time 1, B at time 2, C at time 3, then update B
(setting its status) at time 4. -/
def scenarioAfterUpdate : Store :=
  let s1 := (upsertTask scenarioBase 1 scenarioReqA).2
  let s2 := (upsertTask s1 2 scenarioReqB).2
  let s3 := (upsertTask s2 3 scenarioReqC).2
  (upsertTask s3 4 { scenarioReqB with id := 2, status := "doing" }).2

/-- A 'CJK' string of `n` identical multi-byte characters. -/
def cjkString (n : Nat) : String := ⟨List.replicate n '好'⟩


/-! ## Helper lemmas: settings-table lookup -/

theorem settingsLookup_cons (kv : String × String) (rest : List (String × String))
    (k : String) :
    settingsLookup (kv :: rest) k =
      if kv.1 = k then some kv.2 else settingsLookup rest k := rfl

theorem containsKey_cons (kv : String × String) (rest : List (String × String))
    (k : String) :
    containsKey (kv :: rest) k = (decide (kv.1 = k) || containsKey rest k) := rfl

theorem settingsLookup_append_of_some {l1 l2 : List (String × String)} {k v : String}
    (h : settingsLookup l1 k = some v) : settingsLookup (l1 ++ l2) k = some v := by
  induction l1 with
  | nil => simp [settingsLookup] at h
  | cons kv rest ih =>
    rw [List.cons_append, settingsLookup_cons]
    rw [settingsLookup_cons] at h
    split at h
    · rename_i hk
      rw [if_pos hk]
      exact h
    · rename_i hk
      rw [if_neg hk]
      exact ih h

theorem settingsLookup_append_of_none {l1 l2 : List (String × String)} {k : String}
    (h : settingsLookup l1 k = none) : settingsLookup (l1 ++ l2) k = settingsLookup l2 k := by
  induction l1 with
  | nil => simp
  | cons kv rest ih =>
    rw [List.cons_append, settingsLookup_cons]
    rw [settingsLookup_cons] at h
    split at h
    · exact absurd h (by simp)
    · rename_i hk
      rw [if_neg hk]
      exact ih h

theorem containsKey_eq_false_iff {l : List (String × String)} {k : String} :
    containsKey l k = false ↔ settingsLookup l k = none := by
  induction l with
  | nil => simp [containsKey, settingsLookup]
  | cons kv rest ih =>
    rw [containsKey_cons, settingsLookup_cons]
    constructor
    · intro h
      simp only [Bool.or_eq_false_iff, decide_eq_false_iff_not] at h
      rw [if_neg h.1]
      exact ih.mp h.2
    · intro h
      split at h
      · exact absurd h (by simp)
      · simp only [Bool.or_eq_false_iff, decide_eq_false_iff_not]
        exact ⟨by assumption, ih.mpr h⟩

theorem settingsLookup_map_replace (k v : String) :
    ∀ l : List (String × String), containsKey l k = true →
      settingsLookup (l.map (fun kv => if kv.1 = k then (k, v) else kv)) k = some v
  | kv :: rest, hc => by
    rw [List.map_cons]
    by_cases hk : kv.1 = k
    · rw [if_pos hk, settingsLookup_cons]
      simp
    · rw [if_neg hk, settingsLookup_cons, if_neg hk]
      rw [containsKey_cons] at hc
      simp only [Bool.or_eq_true, decide_eq_true_eq] at hc
      exact settingsLookup_map_replace k v rest (hc.resolve_left hk)

theorem settingsLookup_map_replace_ne (k key v : String) (hne : k ≠ key) :
    ∀ l : List (String × String),
      settingsLookup (l.map (fun kv => if kv.1 = key then (key, v) else kv)) k =
        settingsLookup l k
  | [] => rfl
  | kv :: rest => by
    rw [List.map_cons]
    by_cases hk : kv.1 = key
    · rw [if_pos hk, settingsLookup_cons, settingsLookup_cons]
      rw [if_neg (fun hkk : key = k => hne hkk.symm)]
      rw [if_neg (fun hkk : kv.1 = k => hne (hk ▸ hkk ▸ rfl))]
      exact settingsLookup_map_replace_ne k key v hne rest
    · rw [if_neg hk, settingsLookup_cons, settingsLookup_cons]
      split
      · rfl
      · exact settingsLookup_map_replace_ne k key v hne rest

theorem settingsLookup_setSetting_self (l : List (String × String)) (k v : String) :
    settingsLookup (setSetting l k v) k = some v := by
  unfold setSetting
  split
  · rename_i hc
    exact settingsLookup_map_replace k v l hc
  · rename_i hc
    have hnone : settingsLookup l k = none :=
      containsKey_eq_false_iff.mp (by simpa using hc)
    rw [settingsLookup_append_of_none hnone]
    simp [settingsLookup]

theorem settingsLookup_setSetting_ne (l : List (String × String)) (k key v : String)
    (h : k ≠ key) : settingsLookup (setSetting l key v) k = settingsLookup l k := by
  unfold setSetting
  split
  · exact settingsLookup_map_replace_ne k key v h l
  · cases hlk : settingsLookup l k with
    | some w => rw [settingsLookup_append_of_some hlk]
    | none =>
      rw [settingsLookup_append_of_none hlk]
      simp [settingsLookup, Ne.symm h]

theorem settingsLookup_insertOrIgnore_of_some {l : List (String × String)}
    {k v : String} (key value : String) (h : settingsLookup l k = some v) :
    settingsLookup (insertOrIgnoreSetting l key value) k = some v := by
  unfold insertOrIgnoreSetting
  split
  · exact h
  · exact settingsLookup_append_of_some h

theorem settingsLookup_insertOrIgnore_self_of_none {l : List (String × String)}
    {k : String} (value : String) (h : settingsLookup l k = none) :
    settingsLookup (insertOrIgnoreSetting l k value) k = some value := by
  unfold insertOrIgnoreSetting
  rw [if_neg (by simp [containsKey_eq_false_iff.mpr h])]
  rw [settingsLookup_append_of_none h]
  simp [settingsLookup]

theorem settingsLookup_insertOrIgnore_ne_of_none {l : List (String × String)}
    {k : String} (key value : String) (hne : k ≠ key)
    (h : settingsLookup l k = none) :
    settingsLookup (insertOrIgnoreSetting l key value) k = none := by
  unfold insertOrIgnoreSetting
  split
  · exact h
  · rw [settingsLookup_append_of_none h]
    simp [settingsLookup, Ne.symm hne]

/-! ## Helper lemmas: the GetSettings row fold -/

theorem applySettingRow_viewMode_of_ne (acc : Settings) (kv : String × String)
    (h : kv.1 ≠ "viewMode") : (applySettingRow acc kv).viewMode = acc.viewMode := by
  unfold applySettingRow
  split <;> simp_all

theorem applySettingRow_alwaysOnTop_of_ne (acc : Settings) (kv : String × String)
    (h : kv.1 ≠ "alwaysOnTop") : (applySettingRow acc kv).alwaysOnTop = acc.alwaysOnTop := by
  unfold applySettingRow
  split <;> simp_all

theorem applySettingRow_hideDone_of_ne (acc : Settings) (kv : String × String)
    (h : kv.1 ≠ "hideDone") : (applySettingRow acc kv).hideDone = acc.hideDone := by
  unfold applySettingRow
  split <;> simp_all

theorem applySettingRow_conciseMode_of_ne (acc : Settings) (kv : String × String)
    (h : kv.1 ≠ "conciseMode") : (applySettingRow acc kv).conciseMode = acc.conciseMode := by
  unfold applySettingRow
  split <;> simp_all

theorem foldl_applySettingRow_of_not_mem {α : Type} (f : Settings → α) (key : String)
    (hne : ∀ acc kv, kv.1 ≠ key → f (applySettingRow acc kv) = f acc) :
    ∀ (l : List (String × String)) (acc : Settings),
      key ∉ l.map Prod.fst → f (l.foldl applySettingRow acc) = f acc
  | [], _, _ => rfl
  | kv :: rest, acc, h => by
    simp only [List.map_cons, List.mem_cons] at h
    push_neg at h
    rw [List.foldl_cons,
      foldl_applySettingRow_of_not_mem f key hne rest _ h.2,
      hne acc kv (fun hk => h.1 hk.symm)]

theorem foldl_applySettingRow_of_mem {α : Type} (f : Settings → α) (key : String)
    (upd : String → α)
    (hne : ∀ acc kv, kv.1 ≠ key → f (applySettingRow acc kv) = f acc)
    (hset : ∀ acc v, f (applySettingRow acc (key, v)) = upd v) :
    ∀ (l : List (String × String)) (acc : Settings) (v : String),
      (l.map Prod.fst).Nodup → (key, v) ∈ l →
      f (l.foldl applySettingRow acc) = upd v
  | kv :: rest, acc, v, hnd, hmem => by
    simp only [List.map_cons, List.nodup_cons] at hnd
    rw [List.foldl_cons]
    rcases List.mem_cons.mp hmem with heq | hrest
    · subst heq
      rw [foldl_applySettingRow_of_not_mem f key hne rest _ hnd.1, hset]
    · have hk : kv.1 ≠ key := by
        intro hfst
        exact hnd.1 (hfst ▸ List.mem_map_of_mem Prod.fst hrest)
      exact foldl_applySettingRow_of_mem f key upd hne hset rest _ v hnd.2 hrest

theorem getSettings_viewMode_of_mem (s : Store) (v : String)
    (hnd : (s.settings.map Prod.fst).Nodup) (hmem : ("viewMode", v) ∈ s.settings) :
    (getSettings s).viewMode = normalizeViewMode v :=
  foldl_applySettingRow_of_mem (fun st => st.viewMode) "viewMode" normalizeViewMode
    applySettingRow_viewMode_of_ne (fun _ _ => rfl) s.settings defaultSettings v hnd hmem

theorem getSettings_alwaysOnTop_of_mem (s : Store) (v : String)
    (hnd : (s.settings.map Prod.fst).Nodup) (hmem : ("alwaysOnTop", v) ∈ s.settings) :
    (getSettings s).alwaysOnTop = parseBool01True v :=
  foldl_applySettingRow_of_mem (fun st => st.alwaysOnTop) "alwaysOnTop" parseBool01True
    applySettingRow_alwaysOnTop_of_ne (fun _ _ => rfl) s.settings defaultSettings v hnd hmem

theorem getSettings_hideDone_of_mem (s : Store) (v : String)
    (hnd : (s.settings.map Prod.fst).Nodup) (hmem : ("hideDone", v) ∈ s.settings) :
    (getSettings s).hideDone = parseBool01True v :=
  foldl_applySettingRow_of_mem (fun st => st.hideDone) "hideDone" parseBool01True
    applySettingRow_hideDone_of_ne (fun _ _ => rfl) s.settings defaultSettings v hnd hmem

theorem getSettings_conciseMode_of_mem (s : Store) (v : String)
    (hnd : (s.settings.map Prod.fst).Nodup) (hmem : ("conciseMode", v) ∈ s.settings) :
    (getSettings s).conciseMode = parseBool01True v :=
  foldl_applySettingRow_of_mem (fun st => st.conciseMode) "conciseMode" parseBool01True
    applySettingRow_conciseMode_of_ne (fun _ _ => rfl) s.settings defaultSettings v hnd hmem

/-! ## Helper lemmas: trimming -/

theorem dropWhile_eq_self_of_all_false {p : Char → Bool} :
    ∀ l : List Char, (∀ c ∈ l, p c = false) → l.dropWhile p = l
  | [], _ => rfl
  | c :: rest, h => by
    rw [List.dropWhile_cons, h c (by simp)]
    simp

theorem goTrimSpace_of_all_nonspace (s : String)
    (h : ∀ c ∈ s.data, goIsSpace c = false) : goTrimSpace s = s := by
  unfold goTrimSpace
  rw [dropWhile_eq_self_of_all_false _ h,
    dropWhile_eq_self_of_all_false _ (fun c hc => h c (List.mem_reverse.mp hc)),
    List.reverse_reverse]

theorem goTrimSpace_cjkString (n : Nat) : goTrimSpace (cjkString n) = cjkString n := by
  apply goTrimSpace_of_all_nonspace
  intro c hc
  have : c = '好' := List.eq_of_mem_replicate hc
  subst this
  decide

theorem cjkString_length (n : Nat) : (cjkString n).length = n := by
  simp [cjkString, String.length]

theorem cjkString_ne_empty (n : Nat) (h : 0 < n) : cjkString n ≠ "" := by
  intro he
  have : (cjkString n).length = 0 := by rw [he]; rfl
  rw [cjkString_length] at this
  omega

/-! ## Helper lemmas: the Unicode lowering on non-ASCII input -/

theorem charToLowerGo_dotted_capital_I : charToLowerGo '\u0130' = 'i' := by decide

theorem charToLowerGo_kelvin_sign : charToLowerGo '\u212A' = 'k' := by decide

theorem toLowerGo_dotted_capital_I : toLowerGo "L\u0130ST" = "list" := by decide

theorem normalizeViewMode_dotted_capital_I :
    normalizeViewMode "L\u0130ST" = "list" := by decide

/-! ## Helper lemmas: decimal formatting and parsing round trip -/

theorem digitChar_facts : ∀ d : Nat, d < 10 →
    (Nat.digitChar d).isDigit = true ∧ goIsSpace (Nat.digitChar d) = false ∧
    Nat.digitChar d ≠ '-' ∧ Nat.digitChar d ≠ '+' ∧
    (Nat.digitChar d).toNat - 48 = d := by decide

theorem decDigitsVal_append_single (l : List Char) (c : Char) :
    decDigitsVal (l ++ [c]) = decDigitsVal l * 10 + (c.toNat - 48) := by
  simp [decDigitsVal, List.foldl_append]

theorem natDecDigitsAux_mem : ∀ (fuel n : Nat), ∀ c ∈ natDecDigitsAux fuel n,
    ∃ d, d < 10 ∧ c = Nat.digitChar d
  | 0, _, c, hc => absurd hc (by simp [natDecDigitsAux])
  | fuel + 1, n, c, hc => by
    rw [natDecDigitsAux] at hc
    split at hc
    · rename_i hn
      simp only [List.mem_singleton] at hc
      exact ⟨n, hn, hc⟩
    · rcases List.mem_append.mp hc with h | h
      · exact natDecDigitsAux_mem fuel (n / 10) c h
      · simp only [List.mem_singleton] at h
        exact ⟨n % 10, Nat.mod_lt n (by omega), h⟩

theorem natDecDigitsAux_ne_nil : ∀ (fuel n : Nat), 0 < fuel →
    natDecDigitsAux fuel n ≠ []
  | fuel + 1, n, _ => by
    rw [natDecDigitsAux]
    split
    · simp
    · simp

theorem decDigitsVal_natDecDigitsAux : ∀ (fuel n : Nat), n < fuel →
    decDigitsVal (natDecDigitsAux fuel n) = n
  | fuel + 1, n, hlt => by
    rw [natDecDigitsAux]
    split
    · rename_i hn
      show decDigitsVal [Nat.digitChar n] = n
      have := (digitChar_facts n hn).2.2.2.2
      simp [decDigitsVal]
      omega
    · rename_i hn
      rw [decDigitsVal_append_single]
      have hdiv : n / 10 < fuel := by omega
      rw [decDigitsVal_natDecDigitsAux fuel (n / 10) hdiv]
      have := (digitChar_facts (n % 10) (Nat.mod_lt n (by omega))).2.2.2.2
      omega

theorem natDecDigits_mem (n : Nat) : ∀ c ∈ natDecDigits n,
    ∃ d, d < 10 ∧ c = Nat.digitChar d :=
  natDecDigitsAux_mem (n + 1) n

theorem natDecDigits_ne_nil (n : Nat) : natDecDigits n ≠ [] :=
  natDecDigitsAux_ne_nil (n + 1) n (by omega)

theorem decDigitsVal_natDecDigits (n : Nat) : decDigitsVal (natDecDigits n) = n :=
  decDigitsVal_natDecDigitsAux (n + 1) n (by omega)

theorem goParseInt64_mk_digits (l : List Char) (hne : l ≠ [])
    (hdig : ∀ c ∈ l, ∃ d, d < 10 ∧ c = Nat.digitChar d)
    (hrange : (decDigitsVal l : Int) < 2 ^ 63) :
    goParseInt64 ⟨l⟩ = some ((decDigitsVal l : Int)) := by
  cases l with
  | nil => exact absurd rfl hne
  | cons c rest =>
    obtain ⟨d, hd, hc⟩ := hdig c (by simp)
    have hnotminus : ¬ c = '-' := by rw [hc]; exact (digitChar_facts d hd).2.2.1
    have hnotplus : ¬ c = '+' := by rw [hc]; exact (digitChar_facts d hd).2.2.2.1
    have halldig : (c :: rest).all (fun d => d.isDigit) = true := by
      rw [List.all_eq_true]
      intro x hx
      obtain ⟨e, he, hxe⟩ := hdig x hx
      rw [hxe]
      exact (digitChar_facts e he).1
    show goParseInt64 ⟨c :: rest⟩ = some (decDigitsVal (c :: rest))
    unfold goParseInt64
    simp only [if_neg hnotminus, if_neg hnotplus]
    rw [if_neg (by simp), if_pos halldig,
      if_pos ⟨by omega, hrange⟩]
    simp

theorem goTrimSpace_mk_digits (l : List Char)
    (hdig : ∀ c ∈ l, ∃ d, d < 10 ∧ c = Nat.digitChar d) :
    goTrimSpace ⟨l⟩ = ⟨l⟩ := by
  apply goTrimSpace_of_all_nonspace
  intro c hc
  obtain ⟨d, hd, hcd⟩ := hdig c hc
  rw [hcd]
  exact (digitChar_facts d hd).2.1

theorem mk_digits_ne_empty (l : List Char) (hne : l ≠ []) : (⟨l⟩ : String) ≠ "" := by
  intro h
  exact hne (by simpa [String.ext_iff] using h)

/-! ## Claim C1: viewMode normalization -/

/-- C1 counterexample: with stored `viewMode = "LIST"` — a value that is not
exactly `"list"` or `"cards"` — `GetSettings` returns `"list"`, not `"cards"`
as the claim demands, so the claim as stated is false. -/
theorem C1_counterexample_viewMode_LIST :
    ("viewMode", "LIST") ∈ (⟨[], [], [("viewMode", "LIST")], 1, 1⟩ : Store).settings ∧
    (getSettings ⟨[], [], [("viewMode", "LIST")], 1, 1⟩).viewMode = "list" ∧
    (getSettings ⟨[], [], [("viewMode", "LIST")], 1, 1⟩).viewMode ≠ "LIST" ∧
    (getSettings ⟨[], [], [("viewMode", "LIST")], 1, 1⟩).viewMode ≠ "cards" := by
  decide

/-- C1 (amended): for every stored `viewMode` value, `GetSettings` returns the
trimmed and lower-cased form of the stored value when that form is exactly
`"list"` or `"cards"`, and returns `"cards"` for any other stored value
(in particular for any trimmed, lower-cased form exceeding 20 code points);
`SetSettings` writes the `viewMode` field through the same normalization. -/
theorem C1_viewMode_normalization :
    (∀ v : String,
        normalizeViewMode v =
          (if toLowerGo (goTrimSpace v) = "list" ∨ toLowerGo (goTrimSpace v) = "cards"
           then toLowerGo (goTrimSpace v) else "cards")) ∧
    (∀ (s : Store) (v : String),
        (s.settings.map Prod.fst).Nodup → ("viewMode", v) ∈ s.settings →
        (getSettings s).viewMode = normalizeViewMode v) ∧
    (∀ (s : Store) (st : Settings),
        settingsLookup (setSettings s st).settings "viewMode" =
          some (normalizeViewMode st.viewMode)) := by
  refine ⟨fun v => ?_, fun s v hnd hm => getSettings_viewMode_of_mem s v hnd hm,
    fun s st => ?_⟩
  · simp only [normalizeViewMode]
    by_cases hlen : (toLowerGo (goTrimSpace v)).length > maxViewModeRunes
    · rw [if_pos hlen, if_neg]
      rintro (h | h) <;> rw [h] at hlen <;> exact absurd hlen (by decide)
    · rw [if_neg hlen]
  · unfold setSettings
    rw [settingsLookup_setSetting_ne _ _ _ _ (by decide)]
    exact settingsLookup_setSetting_self _ _ _

/-- Witness for C1 (amended), at concrete inputs: a stored `" CARDS "` reads
back as its trimmed lower-cased form `"cards"`, and `SetSettings` stores the
normalization of the requested view mode. -/
theorem C1_viewMode_normalization_witness :
    ((getSettings ⟨[], [], [("viewMode", " CARDS ")], 1, 1⟩).viewMode =
      normalizeViewMode " CARDS ") ∧
    (settingsLookup (setSettings ⟨[], [], [], 1, 1⟩
        ⟨false, true, "list", false, ""⟩).settings "viewMode" =
      some (normalizeViewMode "list")) :=
  ⟨C1_viewMode_normalization.2.1 ⟨[], [], [("viewMode", " CARDS ")], 1, 1⟩ " CARDS "
      (by decide) (by decide),
   C1_viewMode_normalization.2.2 ⟨[], [], [], 1, 1⟩ ⟨false, true, "list", false, ""⟩⟩

/-! ## Claim C9: boolean settings coercion -/

/-- C9: a stored boolean settings row (`alwaysOnTop`, `hideDone`,
`conciseMode`) reads back as `true` exactly when the stored text is `"1"` or
equals `"true"` case-insensitively; every other stored value reads as
`false`. -/
theorem C9_bool_settings_coercion :
    ∀ (s : Store) (v : String),
      (s.settings.map Prod.fst).Nodup →
      ((("alwaysOnTop", v) ∈ s.settings →
          ((getSettings s).alwaysOnTop = true ↔ (v = "1" ∨ toLowerGo v = "true"))) ∧
       (("hideDone", v) ∈ s.settings →
          ((getSettings s).hideDone = true ↔ (v = "1" ∨ toLowerGo v = "true"))) ∧
       (("conciseMode", v) ∈ s.settings →
          ((getSettings s).conciseMode = true ↔ (v = "1" ∨ toLowerGo v = "true")))) := by
  intro s v hnd
  refine ⟨fun hm => ?_, fun hm => ?_, fun hm => ?_⟩
  · rw [getSettings_alwaysOnTop_of_mem s v hnd hm]
    simp [parseBool01True, equalFoldTrue]
  · rw [getSettings_hideDone_of_mem s v hnd hm]
    simp [parseBool01True, equalFoldTrue]
  · rw [getSettings_conciseMode_of_mem s v hnd hm]
    simp [parseBool01True, equalFoldTrue]

/-- Witness for C9 at concrete inputs: stored `"TRUE"` reads as true,
stored `"0"` and `"yes"` read as false. -/
theorem C9_bool_settings_coercion_witness :
    ((getSettings ⟨[], [], [("alwaysOnTop", "TRUE"), ("hideDone", "0"),
        ("conciseMode", "yes")], 1, 1⟩).alwaysOnTop = true ↔
      ("TRUE" = "1" ∨ toLowerGo "TRUE" = "true")) ∧
    ((getSettings ⟨[], [], [("alwaysOnTop", "TRUE"), ("hideDone", "0"),
        ("conciseMode", "yes")], 1, 1⟩).hideDone = true ↔
      ("0" = "1" ∨ toLowerGo "0" = "true")) ∧
    ((getSettings ⟨[], [], [("alwaysOnTop", "TRUE"), ("hideDone", "0"),
        ("conciseMode", "yes")], 1, 1⟩).conciseMode = true ↔
      ("yes" = "1" ∨ toLowerGo "yes" = "true")) :=
  ⟨(C9_bool_settings_coercion ⟨[], [], [("alwaysOnTop", "TRUE"), ("hideDone", "0"),
      ("conciseMode", "yes")], 1, 1⟩ "TRUE" (by decide)).1 (by decide),
   (C9_bool_settings_coercion ⟨[], [], [("alwaysOnTop", "TRUE"), ("hideDone", "0"),
      ("conciseMode", "yes")], 1, 1⟩ "0" (by decide)).2.1 (by decide),
   (C9_bool_settings_coercion ⟨[], [], [("alwaysOnTop", "TRUE"), ("hideDone", "0"),
      ("conciseMode", "yes")], 1, 1⟩ "yes" (by decide)).2.2 (by decide)⟩

/-! ## Claim C8: last-reminder timestamp round trip -/

/-- C8 counterexample: after `SetLastReminderAt(-5)` the stored value is the
clamped `"0"` and `GetLastReminderAt` returns 0, not -5, so "returns exactly
t for every timestamp t" is false at `t = -5`. -/
theorem C8_counterexample_negative_timestamp :
    getLastWaterReminderAt (setLastWaterReminderAt ⟨[], [], [], 1, 1⟩ (-5)) = .ok 0 ∧
    ¬ ((0 : Int) = -5) := by decide

/-- C8 (amended): `GetLastReminderAt` on a store without the key returns 0;
for every positive timestamp `t` in the int64 range, after
`SetLastReminderAt(t)` it returns exactly `t`; a non-positive `t` is stored
clamped to 0 and reads back as 0; and any stored value parsing to a
non-positive number reads back as 0. -/
theorem C8_reminder_roundtrip :
    (∀ s : Store, settingsLookup s.settings "lastWaterReminderAt" = none →
        getLastWaterReminderAt s = .ok 0) ∧
    (∀ (s : Store) (t : Int), 0 < t → t < 2 ^ 63 →
        getLastWaterReminderAt (setLastWaterReminderAt s t) = .ok t) ∧
    (∀ (s : Store) (t : Int), t ≤ 0 →
        getLastWaterReminderAt (setLastWaterReminderAt s t) = .ok 0) ∧
    (∀ (s : Store) (v : String) (t : Int),
        settingsLookup s.settings "lastWaterReminderAt" = some v →
        goTrimSpace v ≠ "" → goParseInt64 (goTrimSpace v) = some t → t ≤ 0 →
        getLastWaterReminderAt s = .ok 0) := by
  refine ⟨fun s h => ?_, fun s t ht hlt => ?_, fun s t ht => ?_,
    fun s v t h hne hp hts => ?_⟩
  · simp [getLastWaterReminderAt, h]
  · have hclamp : (if t ≤ 0 then (0 : Int) else t) = t := if_neg (by omega)
    have hfmt : goFormatInt t = ⟨natDecDigits t.toNat⟩ := by
      unfold goFormatInt
      rw [if_neg (by omega)]
    have htrim : goTrimSpace ⟨natDecDigits t.toNat⟩ = ⟨natDecDigits t.toNat⟩ :=
      goTrimSpace_mk_digits _ (natDecDigits_mem _)
    have hnee : (⟨natDecDigits t.toNat⟩ : String) ≠ "" :=
      mk_digits_ne_empty _ (natDecDigits_ne_nil _)
    have hparse : goParseInt64 ⟨natDecDigits t.toNat⟩ = some t := by
      rw [goParseInt64_mk_digits _ (natDecDigits_ne_nil _) (natDecDigits_mem _)
        (by rw [decDigitsVal_natDecDigits]; omega)]
      rw [decDigitsVal_natDecDigits]
      congr 1
      omega
    unfold setLastWaterReminderAt getLastWaterReminderAt
    simp only [hclamp, hfmt, settingsLookup_setSetting_self, htrim,
      if_neg hnee, hparse]
    rw [if_neg (by omega)]
  · have hclamp : (if t ≤ 0 then (0 : Int) else t) = 0 := if_pos ht
    unfold setLastWaterReminderAt getLastWaterReminderAt
    simp only [hclamp, settingsLookup_setSetting_self]
    decide
  · unfold getLastWaterReminderAt
    simp only [h, if_neg hne, hp]
    rw [if_pos hts]

/-- Witness for C8 (amended) at concrete inputs. -/
theorem C8_reminder_roundtrip_witness :
    getLastWaterReminderAt ⟨[], [], [], 1, 1⟩ = .ok 0 ∧
    getLastWaterReminderAt (setLastWaterReminderAt ⟨[], [], [], 1, 1⟩ 1234567) = .ok 1234567 ∧
    getLastWaterReminderAt (setLastWaterReminderAt ⟨[], [], [], 1, 1⟩ 0) = .ok 0 ∧
    getLastWaterReminderAt ⟨[], [], [("lastWaterReminderAt", "-7")], 1, 1⟩ = .ok 0 :=
  ⟨C8_reminder_roundtrip.1 ⟨[], [], [], 1, 1⟩ (by decide),
   C8_reminder_roundtrip.2.1 ⟨[], [], [], 1, 1⟩ 1234567 (by decide) (by decide),
   C8_reminder_roundtrip.2.2.1 ⟨[], [], [], 1, 1⟩ 0 (by decide),
   C8_reminder_roundtrip.2.2.2 ⟨[], [], [("lastWaterReminderAt", "-7")], 1, 1⟩
     "-7" (-7) (by decide) (by decide) (by decide) (by decide)⟩

/-! ## Claim C6: bootstrap idempotence -/

theorem ensureDefaultGroup_of_ne_nil (s : Store) (now : Int) (h : s.groups ≠ []) :
    ensureDefaultGroup s now = s := by
  unfold ensureDefaultGroup
  rw [if_pos (List.length_pos.mpr h)]

theorem ensureDefaultGroup_groups_ne_nil (s : Store) (now : Int) :
    (ensureDefaultGroup s now).groups ≠ [] := by
  unfold ensureDefaultGroup
  split
  · rename_i h
    exact List.length_pos.mp h
  · simp

/-- C6: the defaults bootstrap is idempotent — a second run on a store that
already has a group inserts no group, and a stored settings value (even a
falsy `"0"`) is never overwritten, while absent keys get their default. -/
theorem C6_bootstrap_idempotent :
    (∀ (s : Store) (now : Int), s.groups ≠ [] → ensureDefaultGroup s now = s) ∧
    (∀ (s : Store) (now now2 : Int),
        (ensureDefaultGroup (ensureDefaultGroup s now) now2).groups.length =
          (ensureDefaultGroup s now).groups.length) ∧
    (∀ (s : Store) (k v : String), settingsLookup s.settings k = some v →
        settingsLookup (ensureDefaultSettings s).settings k = some v) ∧
    (∀ (s : Store) (k v : String), settingsLookup s.settings k = none →
        (k, v) ∈ defaultSettingPairs →
        settingsLookup (ensureDefaultSettings s).settings k = some v) := by
  refine ⟨fun s now h => ensureDefaultGroup_of_ne_nil s now h,
    fun s now now2 => ?_, fun s k v h => ?_, fun s k v h hmem => ?_⟩
  · rw [ensureDefaultGroup_of_ne_nil _ now2 (ensureDefaultGroup_groups_ne_nil s now)]
  · unfold ensureDefaultSettings defaultSettingPairs
    simp only [List.foldl_cons, List.foldl_nil]
    exact settingsLookup_insertOrIgnore_of_some _ _
      (settingsLookup_insertOrIgnore_of_some _ _
        (settingsLookup_insertOrIgnore_of_some _ _
          (settingsLookup_insertOrIgnore_of_some _ _ h)))
  · unfold ensureDefaultSettings
    simp only [defaultSettingPairs, List.mem_cons, List.mem_singleton,
      List.not_mem_nil, or_false, Prod.mk.injEq] at hmem
    simp only [defaultSettingPairs, List.foldl_cons, List.foldl_nil]
    rcases hmem with ⟨hk, hv⟩ | ⟨hk, hv⟩ | ⟨hk, hv⟩ | ⟨hk, hv⟩ <;> subst hk <;> subst hv
    · exact settingsLookup_insertOrIgnore_of_some _ _
        (settingsLookup_insertOrIgnore_of_some _ _
          (settingsLookup_insertOrIgnore_of_some _ _
            (settingsLookup_insertOrIgnore_self_of_none _ h)))
    · exact settingsLookup_insertOrIgnore_of_some _ _
        (settingsLookup_insertOrIgnore_of_some _ _
          (settingsLookup_insertOrIgnore_self_of_none _
            (settingsLookup_insertOrIgnore_ne_of_none _ _ (by decide) h)))
    · exact settingsLookup_insertOrIgnore_of_some _ _
        (settingsLookup_insertOrIgnore_self_of_none _
          (settingsLookup_insertOrIgnore_ne_of_none _ _ (by decide)
            (settingsLookup_insertOrIgnore_ne_of_none _ _ (by decide) h)))
    · exact settingsLookup_insertOrIgnore_self_of_none _
        (settingsLookup_insertOrIgnore_ne_of_none _ _ (by decide)
          (settingsLookup_insertOrIgnore_ne_of_none _ _ (by decide)
            (settingsLookup_insertOrIgnore_ne_of_none _ _ (by decide) h)))

/-- Witness for C6 at concrete inputs: a second bootstrap leaves a stored
falsy `hideDone = "0"` alone, fills the absent `viewMode`, and does not
duplicate the default group. -/
theorem C6_bootstrap_idempotent_witness :
    ensureDefaultGroup ⟨[⟨1, "默认", 0, 0⟩], [], [], 2, 1⟩ 9 =
      ⟨[⟨1, "默认", 0, 0⟩], [], [], 2, 1⟩ ∧
    settingsLookup (ensureDefaultSettings
      ⟨[], [], [("hideDone", "0")], 1, 1⟩).settings "hideDone" = some "0" ∧
    settingsLookup (ensureDefaultSettings
      ⟨[], [], [("hideDone", "0")], 1, 1⟩).settings "viewMode" = some "cards" :=
  ⟨C6_bootstrap_idempotent.1 ⟨[⟨1, "默认", 0, 0⟩], [], [], 2, 1⟩ 9 (by decide),
   C6_bootstrap_idempotent.2.2.1 ⟨[], [], [("hideDone", "0")], 1, 1⟩ "hideDone" "0" (by decide),
   C6_bootstrap_idempotent.2.2.2 ⟨[], [], [("hideDone", "0")], 1, 1⟩ "viewMode" "cards"
     (by decide) (by decide)⟩

/-! ## Helper lemmas: group repository paths -/
theorem upsertGroup_update_notFound (s : Store) (now id : Int) (name : String)
    (h1 : goTrimSpace name ≠ "") (h2 : (goTrimSpace name).length ≤ maxGroupNameRunes)
    (hid : id ≠ 0) (h3 : ∀ g ∈ s.groups, g.id ≠ id) :
    upsertGroup s now id name = (.error (.groupNotFound id), s) := by
  have hfilter : (s.groups.filter (fun g => g.id = id)).length = 0 := by
    rw [List.length_eq_zero, List.filter_eq_nil_iff]
    intro g hg
    simpa using h3 g hg
  have h2' : ¬ ((goTrimSpace name).length > maxGroupNameRunes) := by omega
  simp [upsertGroup, execUpdateGroupName, h1, h2', hid, hfilter]

theorem upsertGroup_update_dup (s : Store) (now id : Int) (name : String)
    (h1 : goTrimSpace name ≠ "") (h2 : (goTrimSpace name).length ≤ maxGroupNameRunes)
    (hid : id ≠ 0)
    (hex : ∃ g ∈ s.groups, g.id = id)
    (hdup : ∃ g ∈ s.groups, g.id ≠ id ∧ g.name = goTrimSpace name) :
    upsertGroup s now id name = (.error .groupNameDuplicate, s) := by
  have hfilter : ¬ ((s.groups.filter (fun g => g.id = id)).length = 0) := by
    obtain ⟨g, hg, hgid⟩ := hex
    intro h0
    rw [List.length_eq_zero, List.filter_eq_nil_iff] at h0
    exact (h0 g hg) (by simpa using hgid)
  have h2' : ¬ ((goTrimSpace name).length > maxGroupNameRunes) := by omega
  simp [upsertGroup, execUpdateGroupName, h1, h2', hid, hfilter, hdup,
    sqliteIsConstraint, SQLITE_CONSTRAINT_UNIQUE]

theorem upsertGroup_update_ok (s : Store) (now id : Int) (name : String)
    (h1 : goTrimSpace name ≠ "") (h2 : (goTrimSpace name).length ≤ maxGroupNameRunes)
    (hid : id ≠ 0)
    (hex : ∃ g ∈ s.groups, g.id = id)
    (hnoother : ∀ g ∈ s.groups, g.name = goTrimSpace name → g.id = id) :
    (upsertGroup s now id name).1.isOk = true := by
  obtain ⟨g, hg, hgid⟩ := hex
  have hfilter : ¬ ((s.groups.filter (fun g => g.id = id)).length = 0) := by
    intro h0
    rw [List.length_eq_zero, List.filter_eq_nil_iff] at h0
    exact (h0 g hg) (by simpa using hgid)
  have hnone : ¬ (∃ x ∈ s.groups, ¬ x.id = id ∧ x.name = goTrimSpace name) := by
    rintro ⟨g0, hg0, hne, hnm⟩
    exact hne (hnoother g0 hg0 hnm)
  have h2' : ¬ ((goTrimSpace name).length > maxGroupNameRunes) := by omega
  simp only [upsertGroup, execUpdateGroupName, h1, h2', hid, hfilter, hnone,
    if_false, if_neg, ite_false]
  simp [h1, h2', hid, hfilter, hnone]
  split
  · rename_i heq
    rw [Option.map_eq_none'] at heq
    have := List.find?_eq_none.mp heq g hg
    simp [Function.comp, hgid] at this
  · rename_i g' heq
    rfl

theorem upsertGroup_insert_dup (s : Store) (now : Int) (name : String)
    (h1 : goTrimSpace name ≠ "") (h2 : (goTrimSpace name).length ≤ maxGroupNameRunes)
    (h3 : ∃ g ∈ s.groups, g.name = goTrimSpace name) :
    upsertGroup s now 0 name = (.error .groupNameDuplicate, s) := by
  have hany : s.groups.any (fun g => g.name = goTrimSpace name) = true := by
    simp only [List.any_eq_true, decide_eq_true_eq]
    exact h3
  have h2' : ¬ ((goTrimSpace name).length > maxGroupNameRunes) := by omega
  simp [upsertGroup, execInsertGroup, hany, h1, h2', sqliteIsConstraint]

theorem upsertGroup_insert_ok (s : Store) (now : Int) (name : String)
    (h1 : goTrimSpace name ≠ "") (h2 : (goTrimSpace name).length ≤ maxGroupNameRunes)
    (h3 : ∀ g ∈ s.groups, g.name ≠ goTrimSpace name) :
    upsertGroup s now 0 name =
      (.ok ⟨s.nextGroupId, goTrimSpace name, now, now⟩,
       { s with groups := s.groups ++ [⟨s.nextGroupId, goTrimSpace name, now, now⟩],
                nextGroupId := s.nextGroupId + 1 }) := by
  have hany : s.groups.any (fun g => g.name = goTrimSpace name) = false := by
    simp only [List.any_eq_false, decide_eq_true_eq]
    exact h3
  have h2' : ¬ ((goTrimSpace name).length > maxGroupNameRunes) := by omega
  simp [upsertGroup, execInsertGroup, hany, h1, h2']

theorem deleteGroup_invalidId (s : Store) (id : Int) (h : id ≤ 0) :
    deleteGroup s id = (.error .invalidGroupId, s) := by
  simp [deleteGroup, h]

theorem deleteGroup_notFound (s : Store) (id : Int) (h : 0 < id)
    (hnone : ∀ g ∈ s.groups, g.id ≠ id) :
    deleteGroup s id = (.error (.groupNotFound id), s) := by
  have hfilter : (s.groups.filter (fun g => g.id = id)).length = 0 := by
    rw [List.length_eq_zero, List.filter_eq_nil_iff]
    intro g hg
    simpa using hnone g hg
  simp [deleteGroup, execDeleteGroup, hfilter, (show ¬ id ≤ 0 by omega)]

theorem deleteTask_invalidId (s : Store) (id : Int) (h : id ≤ 0) :
    deleteTask s id = (.error .invalidTaskId, s) := by
  simp [deleteTask, h]

theorem deleteTask_notFound (s : Store) (id : Int) (h : 0 < id)
    (hnone : ∀ t ∈ s.tasks, t.id ≠ id) :
    deleteTask s id = (.error (.taskNotFound id), s) := by
  have hfilter : (s.tasks.filter (fun t => t.id = id)).length = 0 := by
    rw [List.length_eq_zero, List.filter_eq_nil_iff]
    intro t ht
    simpa using hnone t ht
  simp [deleteTask, execDeleteTask, hfilter, (show ¬ id ≤ 0 by omega)]

/-! ## Helper lemmas: task repository paths -/
theorem upsertTask_groupRequired (s : Store) (now : Int) (req : TaskRow)
    (h : req.groupId ≤ 0) :
    upsertTask s now req = (.error .groupRequired, s) := by
  simp [upsertTask, h]

theorem upsertTask_groupNotFound (s : Store) (now : Int) (req : TaskRow)
    (h : 0 < req.groupId) (hex : ¬ ∃ x ∈ s.groups, x.id = req.groupId) :
    upsertTask s now req = (.error (.groupNotFound req.groupId), s) := by
  simp [upsertTask, groupExists, hex, (show ¬ req.groupId ≤ 0 by omega)]

theorem upsertTask_titleEmpty (s : Store) (now : Int) (req : TaskRow)
    (h : 0 < req.groupId) (hex : ∃ x ∈ s.groups, x.id = req.groupId)
    (ht : goTrimSpace req.title = "") :
    upsertTask s now req = (.error .taskTitleEmpty, s) := by
  simp [upsertTask, groupExists, hex, ht, (show ¬ req.groupId ≤ 0 by omega)]

theorem upsertTask_titleTooLong (s : Store) (now : Int) (req : TaskRow)
    (h : 0 < req.groupId) (hex : ∃ x ∈ s.groups, x.id = req.groupId)
    (ht : (goTrimSpace req.title).length > maxTaskTitleRunes) :
    upsertTask s now req = (.error .taskTitleTooLong, s) := by
  have hne : ¬ (goTrimSpace req.title = "") := by
    intro he
    rw [he] at ht
    exact absurd ht (by decide)
  simp [upsertTask, groupExists, hex, hne, ht, (show ¬ req.groupId ≤ 0 by omega)]

theorem upsertTask_contentTooLong (s : Store) (now : Int) (req : TaskRow)
    (h : 0 < req.groupId) (hex : ∃ x ∈ s.groups, x.id = req.groupId)
    (ht : goTrimSpace req.title ≠ "")
    (htl : (goTrimSpace req.title).length ≤ maxTaskTitleRunes)
    (hc : (goTrimSpace req.content).length > maxTaskContentRunes) :
    upsertTask s now req = (.error .taskContentTooLong, s) := by
  simp [upsertTask, groupExists, hex, ht, hc, (show ¬ req.groupId ≤ 0 by omega),
    (show ¬ (goTrimSpace req.title).length > maxTaskTitleRunes by omega)]

theorem upsertTask_invalidStatus (s : Store) (now : Int) (req : TaskRow)
    (h : 0 < req.groupId) (hex : ∃ x ∈ s.groups, x.id = req.groupId)
    (ht : goTrimSpace req.title ≠ "")
    (htl : (goTrimSpace req.title).length ≤ maxTaskTitleRunes)
    (hcl : (goTrimSpace req.content).length ≤ maxTaskContentRunes)
    (hst : ¬ (req.status = "todo" ∨ req.status = "doing" ∨ req.status = "done")) :
    upsertTask s now req = (.error (.invalidStatus req.status), s) := by
  simp [upsertTask, groupExists, hex, ht, ParseStatus, hst,
    (show ¬ req.groupId ≤ 0 by omega),
    (show ¬ (goTrimSpace req.title).length > maxTaskTitleRunes by omega),
    (show ¬ (goTrimSpace req.content).length > maxTaskContentRunes by omega)]

theorem upsertTask_insert_ok (s : Store) (now : Int) (req : TaskRow)
    (h : 0 < req.groupId) (hex : ∃ x ∈ s.groups, x.id = req.groupId)
    (ht : goTrimSpace req.title ≠ "")
    (htl : (goTrimSpace req.title).length ≤ maxTaskTitleRunes)
    (hcl : (goTrimSpace req.content).length ≤ maxTaskContentRunes)
    (hst : req.status = "todo" ∨ req.status = "doing" ∨ req.status = "done")
    (hid : req.id = 0) :
    (upsertTask s now req).1.isOk = true := by
  simp [upsertTask, execInsertTask, groupExists, hex, ht, ParseStatus, hst, hid,
    (show ¬ req.groupId ≤ 0 by omega),
    (show ¬ (goTrimSpace req.title).length > maxTaskTitleRunes by omega),
    (show ¬ (goTrimSpace req.content).length > maxTaskContentRunes by omega),
    Except.isOk, Except.toBool]

theorem upsertTask_update_notFound (s : Store) (now : Int) (req : TaskRow)
    (h : 0 < req.groupId) (hex : ∃ x ∈ s.groups, x.id = req.groupId)
    (ht : goTrimSpace req.title ≠ "")
    (htl : (goTrimSpace req.title).length ≤ maxTaskTitleRunes)
    (hcl : (goTrimSpace req.content).length ≤ maxTaskContentRunes)
    (hst : req.status = "todo" ∨ req.status = "doing" ∨ req.status = "done")
    (hid : req.id ≠ 0)
    (hnone : ∀ t ∈ s.tasks, t.id ≠ req.id) :
    upsertTask s now req = (.error (.taskNotFound req.id), s) := by
  have hfilter : (s.tasks.filter (fun t => t.id = req.id)).length = 0 := by
    rw [List.length_eq_zero, List.filter_eq_nil_iff]
    intro t htm
    simpa using hnone t htm
  simp [upsertTask, execUpdateTask, groupExists, hex, ht, ParseStatus, hst, hid, hfilter,
    (show ¬ req.groupId ≤ 0 by omega),
    (show ¬ (goTrimSpace req.title).length > maxTaskTitleRunes by omega),
    (show ¬ (goTrimSpace req.content).length > maxTaskContentRunes by omega)]

theorem upsertGroup_nameTooLong (s : Store) (now id : Int) (name : String)
    (h : (goTrimSpace name).length > maxGroupNameRunes) :
    upsertGroup s now id name = (.error .groupNameTooLong, s) := by
  have hne : ¬ (goTrimSpace name = "") := by
    intro he
    rw [he] at h
    exact absurd h (by decide)
  simp [upsertGroup, hne, h]

theorem goTrimSpace_ne_empty_of_length_pos {name : String} {n : Nat}
    (h : (goTrimSpace name).length = n) (hn : 0 < n) : goTrimSpace name ≠ "" := by
  intro he
  rw [he] at h
  simp [String.length] at h
  omega

/-! ## Claim C2: duplicate-name conflict handling -/

/-- C2: inserting a group with an existing name fails with the duplicate-name
error; updating a group to another group's name fails the same way; renaming
a group to its own current name succeeds; and only the engine's
UNIQUE-constraint code maps to the duplicate-name error. -/
theorem C2_duplicate_group_name :
    (∀ (s : Store) (now : Int) (name : String),
        goTrimSpace name ≠ "" → (goTrimSpace name).length ≤ maxGroupNameRunes →
        (∃ g ∈ s.groups, g.name = goTrimSpace name) →
        upsertGroup s now 0 name = (.error .groupNameDuplicate, s)) ∧
    (∀ (s : Store) (now id : Int) (name : String),
        goTrimSpace name ≠ "" → (goTrimSpace name).length ≤ maxGroupNameRunes →
        id ≠ 0 → (∃ g ∈ s.groups, g.id = id) →
        (∃ g ∈ s.groups, g.id ≠ id ∧ g.name = goTrimSpace name) →
        upsertGroup s now id name = (.error .groupNameDuplicate, s)) ∧
    (∀ (s : Store) (now id : Int) (name : String),
        goTrimSpace name ≠ "" → (goTrimSpace name).length ≤ maxGroupNameRunes →
        id ≠ 0 → (∃ g ∈ s.groups, g.id = id ∧ g.name = goTrimSpace name) →
        (∀ g ∈ s.groups, g.name = goTrimSpace name → g.id = id) →
        (upsertGroup s now id name).1.isOk = true) ∧
    (∀ c : Nat, c ≠ SQLITE_CONSTRAINT_UNIQUE →
        sqliteIsConstraint (.constraint c) SQLITE_CONSTRAINT_UNIQUE = false) ∧
    sqliteIsConstraint (.constraint SQLITE_CONSTRAINT_UNIQUE) SQLITE_CONSTRAINT_UNIQUE = true := by
  refine ⟨fun s now name h1 h2 h3 => upsertGroup_insert_dup s now name h1 h2 h3,
    fun s now id name h1 h2 hid hex hdup =>
      upsertGroup_update_dup s now id name h1 h2 hid hex hdup,
    fun s now id name h1 h2 hid hex hnoother => ?_,
    fun c hc => ?_, rfl⟩
  · obtain ⟨g, hg, hgid, _⟩ := hex
    exact upsertGroup_update_ok s now id name h1 h2 hid ⟨g, hg, hgid⟩ hnoother
  · simp [sqliteIsConstraint, hc]

/-- Witness for C2 at concrete inputs: groups `Work` (id 1) and `Home`
(id 2); inserting another `Work` and renaming `Home` to `Work` both report
the duplicate name, renaming `Work` to itself succeeds, and a CHECK
constraint code (275) is not mapped to the duplicate error. -/
theorem C2_duplicate_group_name_witness :
    upsertGroup ⟨[⟨1, "Work", 10, 10⟩, ⟨2, "Home", 11, 11⟩], [], [], 3, 1⟩ 12 0 "Work" =
      (.error .groupNameDuplicate, ⟨[⟨1, "Work", 10, 10⟩, ⟨2, "Home", 11, 11⟩], [], [], 3, 1⟩) ∧
    upsertGroup ⟨[⟨1, "Work", 10, 10⟩, ⟨2, "Home", 11, 11⟩], [], [], 3, 1⟩ 12 2 "Work" =
      (.error .groupNameDuplicate, ⟨[⟨1, "Work", 10, 10⟩, ⟨2, "Home", 11, 11⟩], [], [], 3, 1⟩) ∧
    (upsertGroup ⟨[⟨1, "Work", 10, 10⟩, ⟨2, "Home", 11, 11⟩], [], [], 3, 1⟩ 12 1 "Work").1.isOk
      = true ∧
    sqliteIsConstraint (.constraint 275) SQLITE_CONSTRAINT_UNIQUE = false :=
  ⟨C2_duplicate_group_name.1 _ 12 "Work" (by decide) (by decide) (by decide),
   C2_duplicate_group_name.2.1 _ 12 2 "Work" (by decide) (by decide) (by decide)
     (by decide) (by decide),
   C2_duplicate_group_name.2.2.1 _ 12 1 "Work" (by decide) (by decide) (by decide)
     (by decide) (by decide),
   C2_duplicate_group_name.2.2.2.1 275 (by decide)⟩

/-! ## Claim C3: length limits in code points -/

/-- C3: all length limits count Unicode code points: a trimmed group name of
exactly 50 code points is accepted and 51 rejected with the too-long error;
a trimmed task title of 200 is accepted and 201 rejected; trimmed content of
1000 is accepted and 1001 rejected. -/
theorem C3_length_limits_in_code_points :
    (∀ (s : Store) (now : Int) (name : String),
        (goTrimSpace name).length = 50 →
        (∀ g ∈ s.groups, g.name ≠ goTrimSpace name) →
        (upsertGroup s now 0 name).1.isOk = true) ∧
    (∀ (s : Store) (now : Int) (name : String),
        (goTrimSpace name).length = 51 →
        upsertGroup s now 0 name = (.error .groupNameTooLong, s)) ∧
    (∀ (s : Store) (now : Int) (req : TaskRow),
        0 < req.groupId → (∃ x ∈ s.groups, x.id = req.groupId) →
        (goTrimSpace req.title).length = 200 →
        (goTrimSpace req.content).length ≤ 1000 →
        (req.status = "todo" ∨ req.status = "doing" ∨ req.status = "done") →
        req.id = 0 →
        (upsertTask s now req).1.isOk = true) ∧
    (∀ (s : Store) (now : Int) (req : TaskRow),
        0 < req.groupId → (∃ x ∈ s.groups, x.id = req.groupId) →
        (goTrimSpace req.title).length = 201 →
        upsertTask s now req = (.error .taskTitleTooLong, s)) ∧
    (∀ (s : Store) (now : Int) (req : TaskRow),
        0 < req.groupId → (∃ x ∈ s.groups, x.id = req.groupId) →
        goTrimSpace req.title ≠ "" → (goTrimSpace req.title).length ≤ 200 →
        (goTrimSpace req.content).length = 1000 →
        (req.status = "todo" ∨ req.status = "doing" ∨ req.status = "done") →
        req.id = 0 →
        (upsertTask s now req).1.isOk = true) ∧
    (∀ (s : Store) (now : Int) (req : TaskRow),
        0 < req.groupId → (∃ x ∈ s.groups, x.id = req.groupId) →
        goTrimSpace req.title ≠ "" → (goTrimSpace req.title).length ≤ 200 →
        (goTrimSpace req.content).length = 1001 →
        upsertTask s now req = (.error .taskContentTooLong, s)) := by
  refine ⟨fun s now name hl hno => ?_, fun s now name hl => ?_,
    fun s now req hg hex hl hcl hst hid => ?_, fun s now req hg hex hl => ?_,
    fun s now req hg hex ht htl hl hst hid => ?_,
    fun s now req hg hex ht htl hl => ?_⟩
  · rw [upsertGroup_insert_ok s now name
      (goTrimSpace_ne_empty_of_length_pos hl (by omega))
      (by simp only [maxGroupNameRunes]; omega) hno]
    rfl
  · exact upsertGroup_nameTooLong s now 0 name (by simp only [maxGroupNameRunes]; omega)
  · exact upsertTask_insert_ok s now req hg hex
      (goTrimSpace_ne_empty_of_length_pos hl (by omega))
      (by simp only [maxTaskTitleRunes]; omega)
      (by simp only [maxTaskContentRunes]; omega) hst hid
  · exact upsertTask_titleTooLong s now req hg hex
      (by simp only [maxTaskTitleRunes]; omega)
  · exact upsertTask_insert_ok s now req hg hex ht
      (by simp only [maxTaskTitleRunes]; omega)
      (by simp only [maxTaskContentRunes]; omega) hst hid
  · exact upsertTask_contentTooLong s now req hg hex ht
      (by simp only [maxTaskTitleRunes]; omega)
      (by simp only [maxTaskContentRunes]; omega)

/-- Witness for C3 at concrete multi-byte inputs: names/titles/contents made
of the CJK character `好` at the exact limits and one beyond. -/
theorem C3_length_limits_in_code_points_witness :
    (upsertGroup ⟨[⟨1, "默认", 0, 0⟩], [], [], 2, 1⟩ 5 0 (cjkString 50)).1.isOk = true ∧
    upsertGroup ⟨[⟨1, "默认", 0, 0⟩], [], [], 2, 1⟩ 5 0 (cjkString 51) =
      (.error .groupNameTooLong, ⟨[⟨1, "默认", 0, 0⟩], [], [], 2, 1⟩) ∧
    (upsertTask ⟨[⟨1, "默认", 0, 0⟩], [], [], 2, 1⟩ 5
      ⟨0, 1, cjkString 200, "", "todo", false, false, 0, 0⟩).1.isOk = true ∧
    upsertTask ⟨[⟨1, "默认", 0, 0⟩], [], [], 2, 1⟩ 5
      ⟨0, 1, cjkString 201, "", "todo", false, false, 0, 0⟩ =
      (.error .taskTitleTooLong, ⟨[⟨1, "默认", 0, 0⟩], [], [], 2, 1⟩) ∧
    (upsertTask ⟨[⟨1, "默认", 0, 0⟩], [], [], 2, 1⟩ 5
      ⟨0, 1, "t", cjkString 1000, "todo", false, false, 0, 0⟩).1.isOk = true ∧
    upsertTask ⟨[⟨1, "默认", 0, 0⟩], [], [], 2, 1⟩ 5
      ⟨0, 1, "t", cjkString 1001, "todo", false, false, 0, 0⟩ =
      (.error .taskContentTooLong, ⟨[⟨1, "默认", 0, 0⟩], [], [], 2, 1⟩) :=
  ⟨C3_length_limits_in_code_points.1 _ 5 (cjkString 50)
      (by rw [goTrimSpace_cjkString, cjkString_length])
      (by rw [goTrimSpace_cjkString]; decide),
   C3_length_limits_in_code_points.2.1 _ 5 (cjkString 51)
      (by rw [goTrimSpace_cjkString, cjkString_length]),
   C3_length_limits_in_code_points.2.2.1 _ 5 _ (by decide) (by decide)
      (by rw [goTrimSpace_cjkString, cjkString_length]) (by decide) (by decide) (by decide),
   C3_length_limits_in_code_points.2.2.2.1 _ 5 _ (by decide) (by decide)
      (by rw [goTrimSpace_cjkString, cjkString_length]),
   C3_length_limits_in_code_points.2.2.2.2.1 _ 5 _ (by decide) (by decide)
      (by decide) (by decide)
      (by rw [goTrimSpace_cjkString, cjkString_length]) (by decide) (by decide),
   C3_length_limits_in_code_points.2.2.2.2.2 _ 5 _ (by decide) (by decide)
      (by decide) (by decide)
      (by rw [goTrimSpace_cjkString, cjkString_length])⟩

/-! ## Claim C7: not-found detection -/

/-- C7: updating a group or task at an id matching no row, and deleting a
group or task at an id matching no row, fail with the respective not-found
error with the store unchanged (zero rows affected by the attempted write);
deletes reject non-positive ids before any write. -/
theorem C7_not_found_on_missing_id :
    (∀ (s : Store) (now id : Int) (name : String),
        0 < id → goTrimSpace name ≠ "" →
        (goTrimSpace name).length ≤ maxGroupNameRunes →
        (∀ g ∈ s.groups, g.id ≠ id) →
        upsertGroup s now id name = (.error (.groupNotFound id), s)) ∧
    (∀ (s : Store) (now : Int) (req : TaskRow),
        0 < req.id → 0 < req.groupId → (∃ x ∈ s.groups, x.id = req.groupId) →
        goTrimSpace req.title ≠ "" →
        (goTrimSpace req.title).length ≤ maxTaskTitleRunes →
        (goTrimSpace req.content).length ≤ maxTaskContentRunes →
        (req.status = "todo" ∨ req.status = "doing" ∨ req.status = "done") →
        (∀ t ∈ s.tasks, t.id ≠ req.id) →
        upsertTask s now req = (.error (.taskNotFound req.id), s)) ∧
    (∀ (s : Store) (id : Int), 0 < id → (∀ g ∈ s.groups, g.id ≠ id) →
        deleteGroup s id = (.error (.groupNotFound id), s)) ∧
    (∀ (s : Store) (id : Int), 0 < id → (∀ t ∈ s.tasks, t.id ≠ id) →
        deleteTask s id = (.error (.taskNotFound id), s)) ∧
    (∀ (s : Store) (id : Int), id ≤ 0 →
        deleteGroup s id = (.error .invalidGroupId, s) ∧
        deleteTask s id = (.error .invalidTaskId, s)) :=
  ⟨fun s now id name hid h1 h2 h3 =>
      upsertGroup_update_notFound s now id name h1 h2 (by omega) h3,
   fun s now req hid hg hex ht htl hcl hst hnone =>
      upsertTask_update_notFound s now req hg hex ht htl hcl hst (by omega) hnone,
   fun s id hid hnone => deleteGroup_notFound s id hid hnone,
   fun s id hid hnone => deleteTask_notFound s id hid hnone,
   fun s id hid => ⟨deleteGroup_invalidId s id hid, deleteTask_invalidId s id hid⟩⟩

/-- Witness for C7 at concrete inputs: one group (id 1) and no tasks; id 9
never matches, and non-positive ids are rejected. -/
theorem C7_not_found_on_missing_id_witness :
    upsertGroup ⟨[⟨1, "默认", 0, 0⟩], [], [], 2, 1⟩ 5 9 "G" =
      (.error (.groupNotFound 9), ⟨[⟨1, "默认", 0, 0⟩], [], [], 2, 1⟩) ∧
    upsertTask ⟨[⟨1, "默认", 0, 0⟩], [], [], 2, 1⟩ 5
      ⟨9, 1, "t", "", "todo", false, false, 0, 0⟩ =
      (.error (.taskNotFound 9), ⟨[⟨1, "默认", 0, 0⟩], [], [], 2, 1⟩) ∧
    deleteGroup ⟨[⟨1, "默认", 0, 0⟩], [], [], 2, 1⟩ 9 =
      (.error (.groupNotFound 9), ⟨[⟨1, "默认", 0, 0⟩], [], [], 2, 1⟩) ∧
    deleteTask ⟨[⟨1, "默认", 0, 0⟩], [], [], 2, 1⟩ 9 =
      (.error (.taskNotFound 9), ⟨[⟨1, "默认", 0, 0⟩], [], [], 2, 1⟩) ∧
    deleteGroup ⟨[⟨1, "默认", 0, 0⟩], [], [], 2, 1⟩ 0 =
      (.error .invalidGroupId, ⟨[⟨1, "默认", 0, 0⟩], [], [], 2, 1⟩) ∧
    deleteTask ⟨[⟨1, "默认", 0, 0⟩], [], [], 2, 1⟩ (-3) =
      (.error .invalidTaskId, ⟨[⟨1, "默认", 0, 0⟩], [], [], 2, 1⟩) :=
  ⟨C7_not_found_on_missing_id.1 _ 5 9 "G" (by decide) (by decide) (by decide) (by decide),
   C7_not_found_on_missing_id.2.1 _ 5 _ (by decide) (by decide) (by decide) (by decide)
     (by decide) (by decide) (by decide) (by decide),
   C7_not_found_on_missing_id.2.2.1 _ 9 (by decide) (by decide),
   C7_not_found_on_missing_id.2.2.2.1 _ 9 (by decide) (by decide),
   (C7_not_found_on_missing_id.2.2.2.2 _ 0 (by decide)).1,
   (C7_not_found_on_missing_id.2.2.2.2 _ (-3) (by decide)).2⟩

/-! ## Claim C5: task list ordering -/

/-- C5: for every store state, `ListTasks` returns a permutation of the task
rows sorted by `updatedAt` descending with ties broken by `id` descending;
in the concrete scenario (insert A, B, C at increasing times, then update B)
it returns B, then C, then A. -/
theorem C5_list_tasks_ordering :
    (∀ s : Store, List.Sorted taskOrd (listTasks s) ∧ (listTasks s).Perm s.tasks) ∧
    (listTasks scenarioAfterUpdate).map (fun t => t.title) = ["B", "C", "A"] := by
  refine ⟨fun s => ⟨List.sorted_insertionSort taskOrd s.tasks,
    List.perm_insertionSort taskOrd s.tasks⟩, ?_⟩
  decide

theorem upsertGroup_snd_cases (s : Store) (now id : Int) (name : String) :
    (upsertGroup s now id name).2 = s ∨
    ((upsertGroup s now id name).2.groups =
        s.groups ++ [⟨s.nextGroupId, goTrimSpace name, now, now⟩] ∧
      (upsertGroup s now id name).2.nextGroupId = s.nextGroupId + 1) ∨
    ((upsertGroup s now id name).2.groups =
        s.groups.map (fun g =>
          if g.id = id then { g with name := goTrimSpace name, updatedAt := now } else g) ∧
      (upsertGroup s now id name).2.nextGroupId = s.nextGroupId) := by
  by_cases h1 : goTrimSpace name = ""
  · left
    simp [upsertGroup, h1]
  by_cases h2 : (goTrimSpace name).length > maxGroupNameRunes
  · left
    simp [upsertGroup, h1, h2]
  by_cases h3 : id = 0
  · by_cases h4 : ∃ x ∈ s.groups, x.name = goTrimSpace name
    · left
      simp [upsertGroup, execInsertGroup, h1, h2, h3, h4, sqliteIsConstraint]
    · right
      left
      simp [upsertGroup, execInsertGroup, h1, h2, h3, h4]
  · by_cases h5 : (s.groups.filter (fun g => g.id = id)).length = 0
    · left
      simp [upsertGroup, execUpdateGroupName, h1, h2, h3, h5]
    · by_cases h6 : ∃ x ∈ s.groups, ¬ x.id = id ∧ x.name = goTrimSpace name
      · left
        simp [upsertGroup, execUpdateGroupName, h1, h2, h3, h5, h6, sqliteIsConstraint]
      · right
        right
        simp only [upsertGroup, execUpdateGroupName, h1, h2, h3, h5, h6,
          if_false, ite_false, ite_true]
        simp [h1, h2, h5, h6]
        split <;> simp

theorem upsertTask_snd_cases (s : Store) (now : Int) (req : TaskRow) :
    (upsertTask s now req).2 = s ∨
    ((upsertTask s now req).2.tasks =
        s.tasks ++ [⟨s.nextTaskId, req.groupId, goTrimSpace req.title,
          goTrimSpace req.content, req.status, req.important, req.urgent, now, now⟩] ∧
      (upsertTask s now req).2.nextTaskId = s.nextTaskId + 1) ∨
    ((upsertTask s now req).2.tasks =
        s.tasks.map (fun t =>
          if t.id = req.id then
            ⟨t.id, req.groupId, goTrimSpace req.title, goTrimSpace req.content,
              req.status, req.important, req.urgent, t.createdAt, now⟩
          else t) ∧
      (upsertTask s now req).2.nextTaskId = s.nextTaskId) := by
  by_cases h1 : req.groupId ≤ 0
  · left
    simp [upsertTask, h1]
  by_cases h2 : ∃ x ∈ s.groups, x.id = req.groupId
  case neg =>
    left
    simp [upsertTask, groupExists, h1, h2]
  by_cases h3 : goTrimSpace req.title = ""
  · left
    simp [upsertTask, groupExists, h1, h2, h3]
  by_cases h4 : (goTrimSpace req.title).length > maxTaskTitleRunes
  · left
    simp [upsertTask, groupExists, h1, h2, h3, h4]
  by_cases h5 : (goTrimSpace req.content).length > maxTaskContentRunes
  · left
    simp [upsertTask, groupExists, h1, h2, h3, h4, h5]
  by_cases h6 : req.status = "todo" ∨ req.status = "doing" ∨ req.status = "done"
  case neg =>
    left
    simp [upsertTask, groupExists, ParseStatus, h1, h2, h3, h4, h5, h6]
  by_cases h7 : req.id = 0
  · right
    left
    simp [upsertTask, execInsertTask, groupExists, ParseStatus,
      h1, h2, h3, h4, h5, h6, h7]
  · by_cases h8 : (s.tasks.filter (fun t => t.id = req.id)).length = 0
    · left
      simp [upsertTask, execUpdateTask, groupExists, ParseStatus,
        h1, h2, h3, h4, h5, h6, h7, h8]
    · right
      right
      simp only [upsertTask, execUpdateTask, groupExists, ParseStatus,
        h1, h2, h3, h4, h5, h6, h7, h8]
      simp [h1, h2, h3, h4, h5, h6, h8]
      split <;> simp

theorem upsertGroup_ids_positive (s : Store) (now id : Int) (name : String)
    (hpos : ∀ g ∈ s.groups, 0 < g.id) (hnext : 0 < s.nextGroupId) :
    (∀ g ∈ (upsertGroup s now id name).2.groups, 0 < g.id) ∧
      0 < (upsertGroup s now id name).2.nextGroupId := by
  rcases upsertGroup_snd_cases s now id name with h | ⟨hg, hn⟩ | ⟨hg, hn⟩
  · rw [h]
    exact ⟨hpos, hnext⟩
  · rw [hg, hn]
    refine ⟨?_, by omega⟩
    intro g hmem
    rcases List.mem_append.mp hmem with h | h
    · exact hpos g h
    · simp only [List.mem_singleton] at h
      rw [h]
      exact hnext
  · rw [hg, hn]
    refine ⟨?_, hnext⟩
    intro g hmem
    obtain ⟨g0, hg0, hgeq⟩ := List.mem_map.mp hmem
    rw [← hgeq]
    split
    · exact hpos g0 hg0
    · exact hpos g0 hg0

theorem upsertTask_ids_positive (s : Store) (now : Int) (req : TaskRow)
    (hpos : ∀ t ∈ s.tasks, 0 < t.id) (hnext : 0 < s.nextTaskId) :
    (∀ t ∈ (upsertTask s now req).2.tasks, 0 < t.id) ∧
      0 < (upsertTask s now req).2.nextTaskId := by
  rcases upsertTask_snd_cases s now req with h | ⟨hg, hn⟩ | ⟨hg, hn⟩
  · rw [h]
    exact ⟨hpos, hnext⟩
  · rw [hg, hn]
    refine ⟨?_, by omega⟩
    intro t hmem
    rcases List.mem_append.mp hmem with h | h
    · exact hpos t h
    · simp only [List.mem_singleton] at h
      rw [h]
      exact hnext
  · rw [hg, hn]
    refine ⟨?_, hnext⟩
    intro t hmem
    obtain ⟨t0, ht0, hteq⟩ := List.mem_map.mp hmem
    rw [← hteq]
    split
    · exact hpos t0 ht0
    · exact hpos t0 ht0

theorem ensureDefaultGroup_ids_positive (s : Store) (now : Int)
    (hpos : ∀ g ∈ s.groups, 0 < g.id) (hnext : 0 < s.nextGroupId) :
    (∀ g ∈ (ensureDefaultGroup s now).groups, 0 < g.id) ∧
      0 < (ensureDefaultGroup s now).nextGroupId := by
  unfold ensureDefaultGroup
  split
  · exact ⟨hpos, hnext⟩
  · refine ⟨?_, by simpa using by omega⟩
    intro g hmem
    rcases List.mem_append.mp hmem with h | h
    · exact hpos g h
    · simp only [List.mem_singleton] at h
      rw [h]
      exact hnext

/-! ## Claim C10: negative ids take the update path and fail not-found -/

/-- C10: with otherwise valid inputs, a negative id makes `UpsertGroup` and
`UpsertTask` take the update path (the insert branch requires `id == 0`) and
fail with the not-found error, leaving the store unchanged, because no stored
row ever has a non-positive id: row-id positivity is preserved by upserts
and by the default-group bootstrap. -/
theorem C10_negative_id_not_found :
    (∀ (s : Store) (now id : Int) (name : String),
        id < 0 → goTrimSpace name ≠ "" →
        (goTrimSpace name).length ≤ maxGroupNameRunes →
        (∀ g ∈ s.groups, 0 < g.id) →
        upsertGroup s now id name = (.error (.groupNotFound id), s)) ∧
    (∀ (s : Store) (now : Int) (req : TaskRow),
        req.id < 0 → 0 < req.groupId → (∃ x ∈ s.groups, x.id = req.groupId) →
        goTrimSpace req.title ≠ "" →
        (goTrimSpace req.title).length ≤ maxTaskTitleRunes →
        (goTrimSpace req.content).length ≤ maxTaskContentRunes →
        (req.status = "todo" ∨ req.status = "doing" ∨ req.status = "done") →
        (∀ t ∈ s.tasks, 0 < t.id) →
        upsertTask s now req = (.error (.taskNotFound req.id), s)) ∧
    (∀ (s : Store) (now id : Int) (name : String),
        (∀ g ∈ s.groups, 0 < g.id) → 0 < s.nextGroupId →
        (∀ g ∈ (upsertGroup s now id name).2.groups, 0 < g.id) ∧
          0 < (upsertGroup s now id name).2.nextGroupId) ∧
    (∀ (s : Store) (now : Int) (req : TaskRow),
        (∀ t ∈ s.tasks, 0 < t.id) → 0 < s.nextTaskId →
        (∀ t ∈ (upsertTask s now req).2.tasks, 0 < t.id) ∧
          0 < (upsertTask s now req).2.nextTaskId) ∧
    (∀ (s : Store) (now : Int),
        (∀ g ∈ s.groups, 0 < g.id) → 0 < s.nextGroupId →
        (∀ g ∈ (ensureDefaultGroup s now).groups, 0 < g.id) ∧
          0 < (ensureDefaultGroup s now).nextGroupId) :=
  ⟨fun s now id name hid h1 h2 hpos =>
      upsertGroup_update_notFound s now id name h1 h2 (by omega)
        (fun g hg => by have := hpos g hg; omega),
   fun s now req hid hg hex ht htl hcl hst hpos =>
      upsertTask_update_notFound s now req hg hex ht htl hcl hst (by omega)
        (fun t htm => by have := hpos t htm; omega),
   fun s now id name hpos hnext => upsertGroup_ids_positive s now id name hpos hnext,
   fun s now req hpos hnext => upsertTask_ids_positive s now req hpos hnext,
   fun s now hpos hnext => ensureDefaultGroup_ids_positive s now hpos hnext⟩

/-- Witness for C10 at concrete inputs: id -3 (group) and -2 (task) fail with
not-found on a store whose rows all have positive ids, and positivity is
preserved by a concrete insert. -/
theorem C10_negative_id_not_found_witness :
    upsertGroup ⟨[⟨1, "默认", 0, 0⟩], [], [], 2, 1⟩ 5 (-3) "G" =
      (.error (.groupNotFound (-3)), ⟨[⟨1, "默认", 0, 0⟩], [], [], 2, 1⟩) ∧
    upsertTask ⟨[⟨1, "默认", 0, 0⟩], [], [], 2, 1⟩ 5
      ⟨-2, 1, "t", "", "todo", false, false, 0, 0⟩ =
      (.error (.taskNotFound (-2)), ⟨[⟨1, "默认", 0, 0⟩], [], [], 2, 1⟩) ∧
    (∀ g ∈ (upsertGroup ⟨[⟨1, "默认", 0, 0⟩], [], [], 2, 1⟩ 5 0 "G").2.groups, 0 < g.id) ∧
    (∀ t ∈ (upsertTask ⟨[⟨1, "默认", 0, 0⟩], [], [], 2, 1⟩ 5
        ⟨0, 1, "t", "", "todo", false, false, 0, 0⟩).2.tasks, 0 < t.id) ∧
    (∀ g ∈ (ensureDefaultGroup ⟨[], [], [], 1, 1⟩ 5).groups, 0 < g.id) :=
  ⟨C10_negative_id_not_found.1 _ 5 (-3) "G" (by decide) (by decide) (by decide) (by decide),
   C10_negative_id_not_found.2.1 _ 5 _ (by decide) (by decide) (by decide) (by decide)
     (by decide) (by decide) (by decide) (by decide),
   (C10_negative_id_not_found.2.2.1 _ 5 0 "G" (by decide) (by decide)).1,
   (C10_negative_id_not_found.2.2.2.1 _ 5 _ (by decide) (by decide)).1,
   (C10_negative_id_not_found.2.2.2.2 _ 5 (by decide) (by decide)).1⟩

theorem upsertTask_update_ok (s : Store) (now : Int) (req : TaskRow)
    (h : 0 < req.groupId) (hex : ∃ x ∈ s.groups, x.id = req.groupId)
    (ht : goTrimSpace req.title ≠ "")
    (htl : (goTrimSpace req.title).length ≤ maxTaskTitleRunes)
    (hcl : (goTrimSpace req.content).length ≤ maxTaskContentRunes)
    (hst : req.status = "todo" ∨ req.status = "doing" ∨ req.status = "done")
    (hid : req.id ≠ 0)
    (htask : ∃ t ∈ s.tasks, t.id = req.id) :
    (upsertTask s now req).1.isOk = true := by
  obtain ⟨t, htm, htid⟩ := htask
  have hfilter : ¬ ((s.tasks.filter (fun t => t.id = req.id)).length = 0) := by
    intro h0
    rw [List.length_eq_zero, List.filter_eq_nil_iff] at h0
    exact (h0 t htm) (by simpa using htid)
  simp only [upsertTask, execUpdateTask, groupExists, ParseStatus,
    (show ¬ req.groupId ≤ 0 by omega),
    (show ¬ (goTrimSpace req.title).length > maxTaskTitleRunes by omega),
    (show ¬ (goTrimSpace req.content).length > maxTaskContentRunes by omega)]
  simp [hex, ht, hst, hid, hfilter,
    (show ¬ req.groupId ≤ 0 by omega),
    (show ¬ (goTrimSpace req.title).length > maxTaskTitleRunes by omega),
    (show ¬ (goTrimSpace req.content).length > maxTaskContentRunes by omega)]
  split
  · rename_i heq
    rw [Option.map_eq_none'] at heq
    have := List.find?_eq_none.mp heq t htm
    simp [Function.comp, htid] at this
  · rfl

theorem upsertGroup_error_state (s : Store) (now id : Int) (name : String)
    (e : StoreErr) (s' : Store)
    (h : upsertGroup s now id name = (.error e, s'))
    (he : e = .groupNameEmpty ∨ e = .groupNameTooLong) : s' = s := by
  by_cases h1 : goTrimSpace name = ""
  · have heq : upsertGroup s now id name = (.error .groupNameEmpty, s) := by
      simp [upsertGroup, h1]
    rw [heq] at h
    simp only [Prod.mk.injEq] at h
    exact h.2.symm
  by_cases h2 : (goTrimSpace name).length > maxGroupNameRunes
  · rw [upsertGroup_nameTooLong s now id name h2] at h
    simp only [Prod.mk.injEq] at h
    exact h.2.symm
  exfalso
  have h2' : (goTrimSpace name).length ≤ maxGroupNameRunes := by omega
  by_cases h3 : id = 0
  · subst h3
    by_cases h4 : ∃ g ∈ s.groups, g.name = goTrimSpace name
    · rw [upsertGroup_insert_dup s now name h1 h2' h4] at h
      simp only [Prod.mk.injEq, Except.error.injEq] at h
      rcases he with rfl | rfl <;> simp_all
    · rw [upsertGroup_insert_ok s now name h1 h2'
        (by intro g hg hn; exact h4 ⟨g, hg, hn⟩)] at h
      simp at h
  · by_cases h5 : ∃ g ∈ s.groups, g.id = id
    · by_cases h6 : ∃ g ∈ s.groups, g.id ≠ id ∧ g.name = goTrimSpace name
      · rw [upsertGroup_update_dup s now id name h1 h2' h3 h5 h6] at h
        simp only [Prod.mk.injEq, Except.error.injEq] at h
        rcases he with rfl | rfl <;> simp_all
      · have hok := upsertGroup_update_ok s now id name h1 h2' h3 h5
          (by intro g hg hn
              by_contra hne
              exact h6 ⟨g, hg, hne, hn⟩)
        rw [h] at hok
        simp [Except.isOk, Except.toBool] at hok
    · rw [upsertGroup_update_notFound s now id name h1 h2' h3
        (by intro g hg hgid; exact h5 ⟨g, hg, hgid⟩)] at h
      simp only [Prod.mk.injEq, Except.error.injEq] at h
      rcases he with rfl | rfl <;> simp_all

theorem upsertTask_error_state (s : Store) (now : Int) (req : TaskRow)
    (e : StoreErr) (s' : Store)
    (h : upsertTask s now req = (.error e, s'))
    (he : e = .groupRequired ∨ (∃ gid, e = .groupNotFound gid) ∨
      e = .taskTitleEmpty ∨ e = .taskTitleTooLong ∨ e = .taskContentTooLong ∨
      (∃ st, e = .invalidStatus st)) : s' = s := by
  by_cases h1 : req.groupId ≤ 0
  · rw [upsertTask_groupRequired s now req h1] at h
    simp only [Prod.mk.injEq] at h
    exact h.2.symm
  have h1' : 0 < req.groupId := by omega
  by_cases h2 : ∃ x ∈ s.groups, x.id = req.groupId
  case neg =>
    rw [upsertTask_groupNotFound s now req h1' h2] at h
    simp only [Prod.mk.injEq] at h
    exact h.2.symm
  by_cases h3 : goTrimSpace req.title = ""
  · rw [upsertTask_titleEmpty s now req h1' h2 h3] at h
    simp only [Prod.mk.injEq] at h
    exact h.2.symm
  by_cases h4 : (goTrimSpace req.title).length > maxTaskTitleRunes
  · rw [upsertTask_titleTooLong s now req h1' h2 h4] at h
    simp only [Prod.mk.injEq] at h
    exact h.2.symm
  by_cases h5 : (goTrimSpace req.content).length > maxTaskContentRunes
  · rw [upsertTask_contentTooLong s now req h1' h2 h3 (by omega) h5] at h
    simp only [Prod.mk.injEq] at h
    exact h.2.symm
  by_cases h6 : req.status = "todo" ∨ req.status = "doing" ∨ req.status = "done"
  case neg =>
    rw [upsertTask_invalidStatus s now req h1' h2 h3 (by omega) (by omega) h6] at h
    simp only [Prod.mk.injEq] at h
    exact h.2.symm
  exfalso
  by_cases h7 : req.id = 0
  · have hok := upsertTask_insert_ok s now req h1' h2 h3 (by omega) (by omega) h6 h7
    rw [h] at hok
    simp [Except.isOk, Except.toBool] at hok
  · by_cases h8 : ∃ t ∈ s.tasks, t.id = req.id
    · have hok := upsertTask_update_ok s now req h1' h2 h3 (by omega) (by omega) h6 h7 h8
      rw [h] at hok
      simp [Except.isOk, Except.toBool] at hok
    · rw [upsertTask_update_notFound s now req h1' h2 h3 (by omega) (by omega) h6 h7
        (by intro t htm htid; exact h8 ⟨t, htm, htid⟩)] at h
      simp only [Prod.mk.injEq, Except.error.injEq] at h
      rcases he with rfl | ⟨gid, rfl⟩ | rfl | rfl | rfl | ⟨st, rfl⟩ <;> simp_all

theorem deleteGroup_error_state (s : Store) (id : Int) (e : StoreErr) (s' : Store)
    (h : deleteGroup s id = (.error e, s')) : s' = s := by
  by_cases h1 : id ≤ 0
  · rw [deleteGroup_invalidId s id h1] at h
    simp only [Prod.mk.injEq] at h
    exact h.2.symm
  by_cases h2 : (s.groups.filter (fun g => g.id = id)).length = 0
  · have heq : deleteGroup s id = (.error (.groupNotFound id), s) := by
      simp [deleteGroup, execDeleteGroup, h1, h2]
    rw [heq] at h
    simp only [Prod.mk.injEq] at h
    exact h.2.symm
  · exfalso
    have heq : (deleteGroup s id).1.isOk = true := by
      simp [deleteGroup, execDeleteGroup, h1, h2, Except.isOk, Except.toBool]
    rw [h] at heq
    simp [Except.isOk, Except.toBool] at heq

theorem deleteTask_error_state (s : Store) (id : Int) (e : StoreErr) (s' : Store)
    (h : deleteTask s id = (.error e, s')) : s' = s := by
  by_cases h1 : id ≤ 0
  · rw [deleteTask_invalidId s id h1] at h
    simp only [Prod.mk.injEq] at h
    exact h.2.symm
  by_cases h2 : (s.tasks.filter (fun t => t.id = id)).length = 0
  · have heq : deleteTask s id = (.error (.taskNotFound id), s) := by
      simp [deleteTask, execDeleteTask, h1, h2]
    rw [heq] at h
    simp only [Prod.mk.injEq] at h
    exact h.2.symm
  · exfalso
    have heq : (deleteTask s id).1.isOk = true := by
      simp [deleteTask, execDeleteTask, h1, h2, Except.isOk, Except.toBool]
    rw [h] at heq
    simp [Except.isOk, Except.toBool] at heq

/-! ## Claim C4: validation before any write, and check order -/

/-- C4: every validation error of the four mutating operations is raised
before any write, leaving the store unchanged (for the deletes this holds
for every error), and `UpsertTask` checks, in order: positive and existing
`groupId`, title non-empty after trim, title length, content length, and
status membership — each error is reported regardless of later fields. -/
theorem C4_validation_before_write :
    (∀ (s : Store) (now id : Int) (name : String) (e : StoreErr) (s' : Store),
        upsertGroup s now id name = (.error e, s') →
        e = .groupNameEmpty ∨ e = .groupNameTooLong → s' = s) ∧
    (∀ (s : Store) (now : Int) (req : TaskRow) (e : StoreErr) (s' : Store),
        upsertTask s now req = (.error e, s') →
        (e = .groupRequired ∨ (∃ gid, e = .groupNotFound gid) ∨
         e = .taskTitleEmpty ∨ e = .taskTitleTooLong ∨ e = .taskContentTooLong ∨
         (∃ st, e = .invalidStatus st)) →
        s' = s) ∧
    (∀ (s : Store) (id : Int) (e : StoreErr) (s' : Store),
        deleteGroup s id = (.error e, s') → s' = s) ∧
    (∀ (s : Store) (id : Int) (e : StoreErr) (s' : Store),
        deleteTask s id = (.error e, s') → s' = s) ∧
    (∀ (s : Store) (now : Int) (req : TaskRow),
        (req.groupId ≤ 0 → upsertTask s now req = (.error .groupRequired, s)) ∧
        (0 < req.groupId → ¬ (∃ x ∈ s.groups, x.id = req.groupId) →
          upsertTask s now req = (.error (.groupNotFound req.groupId), s)) ∧
        (0 < req.groupId → (∃ x ∈ s.groups, x.id = req.groupId) →
          goTrimSpace req.title = "" →
          upsertTask s now req = (.error .taskTitleEmpty, s)) ∧
        (0 < req.groupId → (∃ x ∈ s.groups, x.id = req.groupId) →
          (goTrimSpace req.title).length > maxTaskTitleRunes →
          upsertTask s now req = (.error .taskTitleTooLong, s)) ∧
        (0 < req.groupId → (∃ x ∈ s.groups, x.id = req.groupId) →
          goTrimSpace req.title ≠ "" →
          (goTrimSpace req.title).length ≤ maxTaskTitleRunes →
          (goTrimSpace req.content).length > maxTaskContentRunes →
          upsertTask s now req = (.error .taskContentTooLong, s)) ∧
        (0 < req.groupId → (∃ x ∈ s.groups, x.id = req.groupId) →
          goTrimSpace req.title ≠ "" →
          (goTrimSpace req.title).length ≤ maxTaskTitleRunes →
          (goTrimSpace req.content).length ≤ maxTaskContentRunes →
          ¬ (req.status = "todo" ∨ req.status = "doing" ∨ req.status = "done") →
          upsertTask s now req = (.error (.invalidStatus req.status), s))) :=
  ⟨fun s now id name e s' h he => upsertGroup_error_state s now id name e s' h he,
   fun s now req e s' h he => upsertTask_error_state s now req e s' h he,
   fun s id e s' h => deleteGroup_error_state s id e s' h,
   fun s id e s' h => deleteTask_error_state s id e s' h,
   fun s now req =>
     ⟨fun h1 => upsertTask_groupRequired s now req h1,
      fun h1 h2 => upsertTask_groupNotFound s now req h1 h2,
      fun h1 h2 h3 => upsertTask_titleEmpty s now req h1 h2 h3,
      fun h1 h2 h4 => upsertTask_titleTooLong s now req h1 h2 h4,
      fun h1 h2 h3 h4 h5 => upsertTask_contentTooLong s now req h1 h2 h3 h4 h5,
      fun h1 h2 h3 h4 h5 h6 =>
        upsertTask_invalidStatus s now req h1 h2 h3 h4 h5 h6⟩⟩

/-- Witness for C4 at concrete inputs: a blank group name, an invalid task
status, and non-positive delete ids leave the concrete store unchanged; a
request with empty title and invalid status reports the title error first;
a non-positive groupId is reported before anything else. -/
theorem C4_validation_before_write_witness :
    (upsertGroup ⟨[⟨1, "默认", 0, 0⟩], [], [], 2, 1⟩ 5 0 " ").2 =
      ⟨[⟨1, "默认", 0, 0⟩], [], [], 2, 1⟩ ∧
    (upsertTask ⟨[⟨1, "默认", 0, 0⟩], [], [], 2, 1⟩ 5
      ⟨0, 1, "t", "", "archived", false, false, 0, 0⟩).2 =
      ⟨[⟨1, "默认", 0, 0⟩], [], [], 2, 1⟩ ∧
    (deleteGroup ⟨[⟨1, "默认", 0, 0⟩], [], [], 2, 1⟩ 0).2 =
      ⟨[⟨1, "默认", 0, 0⟩], [], [], 2, 1⟩ ∧
    (deleteTask ⟨[⟨1, "默认", 0, 0⟩], [], [], 2, 1⟩ (-1)).2 =
      ⟨[⟨1, "默认", 0, 0⟩], [], [], 2, 1⟩ ∧
    upsertTask ⟨[⟨1, "默认", 0, 0⟩], [], [], 2, 1⟩ 5
      ⟨0, 0, "t", "", "todo", false, false, 0, 0⟩ =
      (.error .groupRequired, ⟨[⟨1, "默认", 0, 0⟩], [], [], 2, 1⟩) ∧
    upsertTask ⟨[⟨1, "默认", 0, 0⟩], [], [], 2, 1⟩ 5
      ⟨0, 1, " ", "", "archived", false, false, 0, 0⟩ =
      (.error .taskTitleEmpty, ⟨[⟨1, "默认", 0, 0⟩], [], [], 2, 1⟩) :=
  ⟨C4_validation_before_write.1 ⟨[⟨1, "默认", 0, 0⟩], [], [], 2, 1⟩ 5 0 " "
      .groupNameEmpty _ (by decide) (Or.inl rfl),
   C4_validation_before_write.2.1 ⟨[⟨1, "默认", 0, 0⟩], [], [], 2, 1⟩ 5
      ⟨0, 1, "t", "", "archived", false, false, 0, 0⟩
      (.invalidStatus "archived") _ (by decide)
      (Or.inr (Or.inr (Or.inr (Or.inr (Or.inr ⟨"archived", rfl⟩))))),
   C4_validation_before_write.2.2.1 ⟨[⟨1, "默认", 0, 0⟩], [], [], 2, 1⟩ 0
      .invalidGroupId _ (by decide),
   C4_validation_before_write.2.2.2.1 ⟨[⟨1, "默认", 0, 0⟩], [], [], 2, 1⟩ (-1)
      .invalidTaskId _ (by decide),
   (C4_validation_before_write.2.2.2.2 ⟨[⟨1, "默认", 0, 0⟩], [], [], 2, 1⟩ 5
      ⟨0, 0, "t", "", "todo", false, false, 0, 0⟩).1 (by decide),
   (C4_validation_before_write.2.2.2.2 ⟨[⟨1, "默认", 0, 0⟩], [], [], 2, 1⟩ 5
      ⟨0, 1, " ", "", "archived", false, false, 0, 0⟩).2.2.1 (by decide) (by decide)
      (by decide)⟩
